import Mathlib

/-!
# Verification of the high-command-api collection-and-cache core

A shallow embedding of the core of the `high-command-api` repository:
the SQLite cache store (`src/database.py`), the upstream client
(`src/scraper.py`), the background collector (`src/collector.py`) and the
query/fallback facade endpoints (`src/app.py`).

Modelling conventions:
* Each SQLite table is a list of rows in insertion (rowid) order; an
  `INSERT` appends at the end, an `INSERT OR REPLACE` on a table with a
  `UNIQUE` column deletes the conflicting row and appends the fresh one at
  the end (the fresh row receives a new, larger rowid, so list order stays
  rowid order).  The `planet_status` table has no unique column, so its
  `INSERT OR REPLACE` is a plain append.
* `DATETIME DEFAULT CURRENT_TIMESTAMP` columns are modelled by an explicit
  `now : Int` argument to every write; `datetime.now(timezone.utc)` inside
  `save_campaign` / `get_active_campaigns` is the same clock.
* `ORDER BY timestamp DESC` is modelled by a stable descending insertion
  sort of the reversed table, matching SQLite's scan of the
  `(timestamp)` index in descending direction: rows ordered by timestamp
  descending, equal timestamps by rowid descending.
* A `SELECT ... WHERE col = ?` with `fetchone()` and no `ORDER BY` is
  modelled as the first matching row in rowid-ascending order, matching
  SQLite's forward table/index scan.
* JSON blobs are opaque payloads (`Nat`) except for the fields the
  embedded code actually reads, which are explicit structure fields.
* Python truthiness on an optional integer field (`if planet_index:`) is
  `false` for a missing field and for the value `0`.
* The `expiresAt` JSON field of a campaign is modelled three-valued:
  `absent` (key missing, or a falsy empty string — both save and read
  guard it with `if expiration_time:` so the two behave identically),
  `unparseable` (a truthy string `datetime.fromisoformat` rejects), or
  `at t` (parses to the UTC instant `t`).
-/

/-- The `expiresAt` field of a campaign JSON object, as read by
`Database.save_campaign` and `Database.get_active_campaigns`. -/
inductive ExpiresField : Type
  | absent : ExpiresField
  | unparseable : ExpiresField
  | at_ (t : Int) : ExpiresField
deriving DecidableEq, Repr

/-- A campaign JSON object: the fields the code reads (`id`,
`planet.index`, `expiresAt`) plus an opaque payload for the rest. -/
structure CampaignObj where
  id : Option Int
  planet : Option Int
  expiresAt : ExpiresField
  payload : Nat
deriving DecidableEq, Repr

/-- A planet JSON object: the `index` field the collector reads plus an
opaque payload for the rest. -/
structure PlanetObj where
  index : Option Int
  payload : Nat
deriving DecidableEq, Repr

/-- A planet-event JSON object: the fields `Database.save_planet_events`
reads plus an opaque payload.  `planetIndex` and `eventType` stand for
the normalised value of the snake/camel-case field pair. -/
structure EventObj where
  id : Option Int
  planetIndex : Option Int
  eventType : Option String
  payload : Nat
deriving DecidableEq, Repr

/-- An assignment/dispatch JSON object: the `id` field plus payload. -/
structure IdObj where
  id : Option Int
  payload : Nat
deriving DecidableEq, Repr

/-- Python truthiness of an optional integer (`if planet_index:`):
false when the key is missing or the value is `0`. -/
def truthyInt : Option Int → Bool
  | none => false
  | some v => v != 0

/-- Row of the `war_status` table. -/
structure WarRow where
  data : Nat
  timestamp : Int
deriving DecidableEq, Repr

/-- Row of the `statistics` table. -/
structure StatsRow where
  data : Nat
  timestamp : Int
deriving DecidableEq, Repr

/-- Row of the `planet_status` table. -/
structure PlanetRow where
  planet_index : Int
  data : PlanetObj
  timestamp : Int
deriving DecidableEq, Repr

/-- Row of the `campaigns` table (`campaign_id` is `UNIQUE`). -/
structure CampaignRow where
  campaign_id : Int
  planet_index : Int
  status : String
  data : CampaignObj
  timestamp : Int
deriving DecidableEq, Repr

/-- Row of the `assignments` table (`assignment_id` is `UNIQUE`). -/
structure AssignRow where
  assignment_id : Int
  data : IdObj
  timestamp : Int
deriving DecidableEq, Repr

/-- Row of the `dispatches` table (`dispatch_id` is `UNIQUE`). -/
structure DispatchRow where
  dispatch_id : Int
  data : IdObj
  timestamp : Int
deriving DecidableEq, Repr

/-- Row of the `planet_events` table (`event_id` is `UNIQUE`). -/
structure EventRow where
  event_id : Int
  planet_index : Int
  event_type : String
  data : EventObj
  timestamp : Int
deriving DecidableEq, Repr

/-- Row of the `system_status` key-value table (`key` is `UNIQUE`). -/
structure KVRow where
  key : String
  value : String
  timestamp : Int
deriving DecidableEq, Repr

/-- The SQLite database of `Database._init_db`: each table as a list of
rows in rowid (insertion) order. -/
structure DB where
  war_status : List WarRow
  statistics : List StatsRow
  planet_status : List PlanetRow
  campaigns : List CampaignRow
  assignments : List AssignRow
  dispatches : List DispatchRow
  planet_events : List EventRow
  system_status : List KVRow
deriving DecidableEq, Repr

/-- A freshly initialised database: every table empty. -/
def emptyDB : DB :=
  ⟨[], [], [], [], [], [], [], []⟩

/-- Insert a row into a list sorted by `ts` descending, after any row with
an equal timestamp (stable). -/
def insertTsDesc {α : Type} (ts : α → Int) (r : α) : List α → List α
  | [] => [r]
  | x :: xs => if ts x < ts r then r :: x :: xs else x :: insertTsDesc ts r xs

/-- `ORDER BY timestamp DESC`: rows by timestamp descending, equal
timestamps by rowid descending (SQLite's descending index scan).  The
table list is in rowid-ascending order, so this is the stable descending
sort of the reversed list. -/
def orderByTsDesc {α : Type} (ts : α → Int) (rows : List α) : List α :=
  rows.reverse.foldl (fun acc r => insertTsDesc ts r acc) []

/-- Insert a row into a list sorted by `k` ascending, after any row with
an equal key (stable). -/
def insertKeyAsc {α : Type} (k : α → Int) (r : α) : List α → List α
  | [] => [r]
  | x :: xs => if k r < k x then r :: x :: xs else x :: insertKeyAsc k r xs

/-- `ORDER BY col ASC`: stable ascending sort (equal keys stay in
rowid-ascending order). -/
def orderByKeyAsc {α : Type} (k : α → Int) (rows : List α) : List α :=
  rows.foldl (fun acc r => insertKeyAsc k r acc) []

/-- `Database.save_war_status`: plain `INSERT` of the blob. -/
def save_war_status (d : Nat) (now : Int) (db : DB) : DB :=
  { db with war_status := db.war_status ++ [⟨d, now⟩] }

/-- `Database.save_statistics`: plain `INSERT` of the blob. -/
def save_statistics (d : Nat) (now : Int) (db : DB) : DB :=
  { db with statistics := db.statistics ++ [⟨d, now⟩] }

/-- `Database.save_planet_status`: `INSERT OR REPLACE`, but the
`planet_status` table has no unique column, so every call appends. -/
def save_planet_status (planet_index : Int) (d : PlanetObj) (now : Int) (db : DB) : DB :=
  { db with planet_status := db.planet_status ++ [⟨planet_index, d, now⟩] }

/-- The write-time status computation of `Database.save_campaign`:
missing expiry ⇒ "active"; unparseable ⇒ "active"; otherwise "active"
iff `now < exp_dt`. -/
def campaignWriteStatus (now : Int) : ExpiresField → String
  | .absent => "active"
  | .unparseable => "active"
  | .at_ t => if now < t then "active" else "expired"

/-- `Database.save_campaign`: recompute `status` from `expiresAt` against
the current clock, then `INSERT OR REPLACE` on the unique `campaign_id`
(the conflicting row is deleted, the fresh row appended). -/
def save_campaign (campaign_id planet_index : Int) (d : CampaignObj) (now : Int)
    (db : DB) : DB :=
  { db with campaigns :=
      db.campaigns.filter (fun r => r.campaign_id != campaign_id) ++
        [⟨campaign_id, planet_index, campaignWriteStatus now d.expiresAt, d, now⟩] }

/-- `Database.save_assignment`: `INSERT OR REPLACE` on `assignment_id`. -/
def save_assignment (assignment_id : Int) (d : IdObj) (now : Int) (db : DB) : DB :=
  { db with assignments :=
      db.assignments.filter (fun r => r.assignment_id != assignment_id) ++
        [⟨assignment_id, d, now⟩] }

/-- `Database.save_dispatch`: `INSERT OR REPLACE` on `dispatch_id`. -/
def save_dispatch (dispatch_id : Int) (d : IdObj) (now : Int) (db : DB) : DB :=
  { db with dispatches :=
      db.dispatches.filter (fun r => r.dispatch_id != dispatch_id) ++
        [⟨dispatch_id, d, now⟩] }

/-- `Database.save_planet_event`: `INSERT OR REPLACE` on `event_id`. -/
def save_planet_event (event_id planet_index : Int) (event_type : String)
    (d : EventObj) (now : Int) (db : DB) : DB :=
  { db with planet_events :=
      db.planet_events.filter (fun r => r.event_id != event_id) ++
        [⟨event_id, planet_index, event_type, d, now⟩] }

/-- `Database.save_assignments`: per element, save when `id` is truthy. -/
def save_assignments (ds : List IdObj) (now : Int) (db : DB) : DB :=
  ds.foldl (fun db a =>
    match a.id with
    | some i => if i != 0 then save_assignment i a now db else db
    | none => db) db

/-- `Database.save_dispatches`: per element, save when `id` is truthy. -/
def save_dispatches (ds : List IdObj) (now : Int) (db : DB) : DB :=
  ds.foldl (fun db a =>
    match a.id with
    | some i => if i != 0 then save_dispatch i a now db else db
    | none => db) db

/-- `Database.save_planet_events` (bulk): save each event whose `id` and
planet index are truthy (`if event_id and planet_index:`); the
`eventType` field defaults to `"unknown"` when absent. -/
def save_planet_events (es : List EventObj) (now : Int) (db : DB) : DB :=
  es.foldl (fun db e =>
    match e.id, e.planetIndex with
    | some i, some pi_ =>
        if i != 0 && pi_ != 0 then
          save_planet_event i pi_ (e.eventType.getD "unknown") e now db
        else db
    | _, _ => db) db

/-- `Database.get_latest_war_status`:
`SELECT data FROM war_status ORDER BY timestamp DESC LIMIT 1`. -/
def get_latest_war_status (db : DB) : Option Nat :=
  ((orderByTsDesc (·.timestamp) db.war_status).head?).map (·.data)

/-- `Database.get_latest_statistics`:
`SELECT data FROM statistics ORDER BY timestamp DESC LIMIT 1`. -/
def get_latest_statistics (db : DB) : Option Nat :=
  ((orderByTsDesc (·.timestamp) db.statistics).head?).map (·.data)

/-- `Database.get_planet_status`:
`SELECT data FROM planet_status WHERE planet_index = ?` with `fetchone()`
and no `ORDER BY` — the first matching row in rowid order. -/
def get_planet_status (planet_index : Int) (db : DB) : Option PlanetObj :=
  (db.planet_status.find? (fun r => r.planet_index == planet_index)).map (·.data)

/-- The read-time filter of `Database.get_active_campaigns`: a campaign
with a truthy `expiresAt` is kept iff parsing fails or `now < exp_dt`;
one without is always kept. -/
def campaignReadActive (now : Int) (d : CampaignObj) : Bool :=
  match d.expiresAt with
  | .absent => true
  | .unparseable => true
  | .at_ t => now < t

/-- `Database.get_active_campaigns`: select rows with persisted status
"active" (newest first), decode, then re-filter by `expiresAt` against
the current clock. -/
def get_active_campaigns (now : Int) (db : DB) : List CampaignObj :=
  (((orderByTsDesc (·.timestamp) (db.campaigns.filter (fun r => r.status == "active")))).map
    (·.data)).filter (campaignReadActive now)

/-- `Database.get_assignment`:
`SELECT data FROM assignments ORDER BY timestamp DESC LIMIT ?`. -/
def get_assignment (limit : Nat) (db : DB) : List IdObj :=
  ((orderByTsDesc (·.timestamp) db.assignments).take limit).map (·.data)

/-- `Database.get_dispatches`:
`SELECT data FROM dispatches ORDER BY timestamp DESC LIMIT ?`. -/
def get_dispatches (limit : Nat) (db : DB) : List IdObj :=
  ((orderByTsDesc (·.timestamp) db.dispatches).take limit).map (·.data)

/-- `Database.get_planet_status_history`: rows of one planet, newest
first, limited, each returned as `{"data": ..., "timestamp": ...}`. -/
def get_planet_status_history (planet_index : Int) (limit : Nat) (db : DB) :
    List (PlanetObj × Int) :=
  ((orderByTsDesc (·.timestamp)
      (db.planet_status.filter (fun r => r.planet_index == planet_index))).take limit).map
    (fun r => (r.data, r.timestamp))

/-- `Database.get_statistics_history`: all statistics rows, newest first,
limited, each returned as `{"data": ..., "timestamp": ...}`. -/
def get_statistics_history (limit : Nat) (db : DB) : List (Nat × Int) :=
  ((orderByTsDesc (·.timestamp) db.statistics).take limit).map
    (fun r => (r.data, r.timestamp))

/-- `Database.update_system_status`: `INSERT OR REPLACE` on the unique
`key`. -/
def update_system_status (key value : String) (now : Int) (db : DB) : DB :=
  { db with system_status :=
      db.system_status.filter (fun r => r.key != key) ++ [⟨key, value, now⟩] }

/-- `Database.get_system_status`: `SELECT value FROM system_status WHERE
key = ?`, `fetchone()` — at most one row exists per key. -/
def get_system_status (key : String) (db : DB) : Option String :=
  (db.system_status.find? (fun r => r.key == key)).map (·.value)

/-- `Database.set_upstream_status`. -/
def set_upstream_status (available : Bool) (now : Int) (db : DB) : DB :=
  update_system_status "upstream_api_available" (if available then "true" else "false")
    now db

/-- `Database.get_upstream_status`:
`status == "true" if status else False` — a missing row and a falsy empty
string both yield `false`. -/
def get_upstream_status (db : DB) : Bool :=
  match get_system_status "upstream_api_available" db with
  | none => false
  | some s => if s = "" then false else s == "true"

/-- Maximum timestamp of any row of the planet-status table
(`SELECT DISTINCT timestamp ... ORDER BY timestamp DESC LIMIT 1`). -/
def maxPlanetTs (rows : List PlanetRow) : Option Int :=
  rows.foldl (fun m r =>
    match m with
    | none => some r.timestamp
    | some t => some (max t r.timestamp)) none

/-- `Database.get_latest_planets_snapshot`: all rows carrying the most
recent timestamp, ordered by planet index ascending; `None` when the
table is empty. -/
def get_latest_planets_snapshot (db : DB) : Option (List PlanetObj) :=
  match maxPlanetTs db.planet_status with
  | none => none
  | some t =>
      let rows := orderByKeyAsc (·.planet_index)
        (db.planet_status.filter (fun r => r.timestamp == t))
      if rows.isEmpty then none else some (rows.map (·.data))

/-- `MAX(timestamp)` of the campaign rows sharing one `campaign_id`. -/
def campaignGroupMaxTs (rows : List CampaignRow) (cid : Int) : Option Int :=
  (rows.filter (fun r => r.campaign_id == cid)).foldl (fun m r =>
    match m with
    | none => some r.timestamp
    | some t => some (max t r.timestamp)) none

/-- `Database.get_latest_campaigns_snapshot`: the row with maximal
timestamp per distinct `campaign_id`, newest first; `None` when empty. -/
def get_latest_campaigns_snapshot (db : DB) : Option (List CampaignObj) :=
  let sel := db.campaigns.filter
    (fun r => campaignGroupMaxTs db.campaigns r.campaign_id == some r.timestamp)
  let rows := orderByTsDesc (·.timestamp) sel
  if rows.isEmpty then none else some (rows.map (·.data))

/-- Clock state of the upstream client: the wall clock (`time.time()`)
and the `last_request_time` attribute. -/
structure ClockState where
  now : Int
  last_request_time : Int
deriving DecidableEq, Repr

/-- `self.request_delay = 2.0` seconds (5 requests / 10 seconds). -/
def request_delay : Int := 2

/-- The sleep `HellDivers2Scraper._rate_limit` performs: when less than
`request_delay` has elapsed since the last request, exactly the
remainder; otherwise nothing. -/
def rate_limit_sleep (s : ClockState) : Int :=
  let elapsed := s.now - s.last_request_time
  if elapsed < request_delay then request_delay - elapsed else 0

/-- `HellDivers2Scraper._rate_limit`: sleep for the remainder of the
minimum interval when needed, then record the current time as
`last_request_time`.  `time.sleep(d)` is modelled as advancing the wall
clock by exactly `d`. -/
def rate_limit (s : ClockState) : ClockState :=
  let elapsed := s.now - s.last_request_time
  if elapsed < request_delay then
    let d := request_delay - elapsed
    { now := s.now + d, last_request_time := s.now + d }
  else
    { now := s.now, last_request_time := s.now }

/-- One upstream HTTP response as classified by the client: a 2xx with a
parsed body, an HTTP error status, a network error or a timeout. -/
inductive UpResponse : Type
  | ok (data : Nat)
  | http (status : Nat)
  | netError
  | timeout
deriving DecidableEq, Repr

/-- Outcome of one resource fetch: the parsed data or `none`
("unavailable"), the number of HTTP attempts made, and the backoff
sleeps performed between attempts. -/
structure FetchOutcome where
  result : Option Nat
  attempts : Nat
  sleeps : List Nat
deriving DecidableEq, Repr

/-- Modelled from the spec: the retry loop of `_fetch_with_backoff`,
which the repository's test suite exercises but whose implementation is
absent from `src/scraper.py`.  Per the spec, a 429 response is retried
with exponential backoff while attempts remain; a 2xx yields its data;
any other HTTP status, network error or timeout immediately yields
"unavailable".  `fuel` is the number of attempts still allowed, `i` the
index of the current attempt; the sleep before retry `k` is `2 ^ k`
(base-unit exponential backoff). -/
def fetchGo (resp : Nat → UpResponse) : Nat → Nat → List Nat → FetchOutcome
  | 0, i, sleeps => ⟨none, i, sleeps.reverse⟩
  | fuel + 1, i, sleeps =>
    match resp i with
    | .ok d => ⟨some d, i + 1, sleeps.reverse⟩
    | .http s =>
        if s == 429 then fetchGo resp fuel (i + 1) (2 ^ i :: sleeps)
        else ⟨none, i + 1, sleeps.reverse⟩
    | .netError => ⟨none, i + 1, sleeps.reverse⟩
    | .timeout => ⟨none, i + 1, sleeps.reverse⟩

/-- Modelled from the spec: `_fetch_with_backoff(url, max_retries)` —
retry on 429 up to the bounded maximum number of attempts, never retry
any other failure. -/
def fetch_with_backoff (resp : Nat → UpResponse) (max_retries : Nat) : FetchOutcome :=
  fetchGo resp max_retries 0 []

/-- The seven upstream fetches of one `collect_all_data` cycle, in the
order the collector performs them.  `Except.error` models the fetch
raising an exception; `Except.ok none` models the client's
"unavailable" return. -/
structure FetchResults where
  war : Except Unit (Option Nat)
  stats : Except Unit (Option Nat)
  planets : Except Unit (Option (List PlanetObj))
  campaigns : Except Unit (Option (List CampaignObj))
  assignments : Except Unit (Option (List IdObj))
  dispatches : Except Unit (Option (List IdObj))
  events : Except Unit (Option (List EventObj))

/-- War-status step of the cycle: persist when data arrived. -/
def collect_war_step (w : Option Nat) (now : Int) (db : DB) : DB :=
  match w with
  | some d => save_war_status d now db
  | none => db

/-- Statistics step of the cycle: persist when data arrived. -/
def collect_stats_step (s : Option Nat) (now : Int) (db : DB) : DB :=
  match s with
  | some d => save_statistics d now db
  | none => db

/-- Planets step of the cycle: `planet_index = planet.get("index")`,
persist only when `if planet_index:` — truthy, i.e. present and
non-zero. -/
def collect_planets_step (ps : Option (List PlanetObj)) (now : Int) (db : DB) : DB :=
  match ps with
  | none => db
  | some l =>
      l.foldl (fun db p =>
        match p.index with
        | some i => if i != 0 then save_planet_status i p now db else db
        | none => db) db

/-- Campaigns step of the cycle: `campaign.get("id")` and
`campaign.get("planet", {}).get("index")` must both be truthy. -/
def collect_campaigns_step (cs : Option (List CampaignObj)) (now : Int) (db : DB) : DB :=
  match cs with
  | none => db
  | some l =>
      l.foldl (fun db c =>
        match c.id, c.planet with
        | some cid, some pi_ =>
            if cid != 0 && pi_ != 0 then save_campaign cid pi_ c now db else db
        | _, _ => db) db

/-- Assignments step of the cycle: bulk-persist a non-empty list. -/
def collect_assignments_step (as_ : Option (List IdObj)) (now : Int) (db : DB) : DB :=
  match as_ with
  | none => db
  | some l => if l.isEmpty then db else save_assignments l now db

/-- Dispatches step of the cycle: bulk-persist a non-empty list. -/
def collect_dispatches_step (ds : Option (List IdObj)) (now : Int) (db : DB) : DB :=
  match ds with
  | none => db
  | some l => if l.isEmpty then db else save_dispatches l now db

/-- Planet-events step of the cycle: bulk-persist a non-empty list. -/
def collect_events_step (es : Option (List EventObj)) (now : Int) (db : DB) : DB :=
  match es with
  | none => db
  | some l => if l.isEmpty then db else save_planet_events l now db

/-- `DataCollector.collect_all_data`: run the seven steps in order inside
one `try`; the first raising fetch aborts the rest, is caught at the
cycle boundary and flips the upstream flag to `false`; a cycle with no
exception flips it to `true`.  Writes of completed steps are individual
commits and survive a later failure. -/
def collect_all_data (f : FetchResults) (now : Int) (db : DB) : DB :=
  match f.war with
  | .error _ => set_upstream_status false now db
  | .ok w =>
    let db := collect_war_step w now db
    match f.stats with
    | .error _ => set_upstream_status false now db
    | .ok s =>
      let db := collect_stats_step s now db
      match f.planets with
      | .error _ => set_upstream_status false now db
      | .ok ps =>
        let db := collect_planets_step ps now db
        match f.campaigns with
        | .error _ => set_upstream_status false now db
        | .ok cs =>
          let db := collect_campaigns_step cs now db
          match f.assignments with
          | .error _ => set_upstream_status false now db
          | .ok as_ =>
            let db := collect_assignments_step as_ now db
            match f.dispatches with
            | .error _ => set_upstream_status false now db
            | .ok ds =>
              let db := collect_dispatches_step ds now db
              match f.events with
              | .error _ => set_upstream_status false now db
              | .ok es =>
                let db := collect_events_step es now db
                set_upstream_status true now db

/-- Result of a read endpoint: a 200 body or an `HTTPException` code. -/
inductive ApiResult (α : Type) : Type
  | ok (a : α)
  | httpError (code : Nat)
deriving DecidableEq, Repr

/-- `GET /api/campaigns` (`app.get_campaigns`): try the live fetch; only
when it returns `None` consult the cached snapshot; when both yield
nothing raise 503.  The handler performs no database write, so the
database is returned unchanged. -/
def get_campaigns_endpoint (live : Option (List CampaignObj)) (db : DB) :
    ApiResult (List CampaignObj) × DB :=
  let d := match live with
    | some x => some x
    | none => get_latest_campaigns_snapshot db
  match d with
  | some x => (.ok x, db)
  | none => (.httpError 503, db)

/-- `GET /api/planets` (`app.get_planets`): same shape over the planets
snapshot. -/
def get_planets_endpoint (live : Option (List PlanetObj)) (db : DB) :
    ApiResult (List PlanetObj) × DB :=
  let d := match live with
    | some x => some x
    | none => get_latest_planets_snapshot db
  match d with
  | some x => (.ok x, db)
  | none => (.httpError 503, db)

/-- A biome JSON object (the value stored under a planet's `biome` key
when it is a dict): its optional `name` field plus an opaque payload. -/
structure BiomeObj where
  name : Option String
  payload : Nat
deriving DecidableEq, Repr

/-- `Database.get_latest_factions_snapshot`: decode the newest war-status
blob and project its `factions` field (`war_data.get("factions", None)`);
`None` when the table is empty or the field is absent.  War blobs are
opaque in the model, so the field accessor is passed as a function. -/
def get_latest_factions_snapshot (factionsOf : Nat → Option (List Nat)) (db : DB) :
    Option (List Nat) :=
  match (orderByTsDesc (fun r => r.timestamp) db.war_status).head? with
  | none => none
  | some r => factionsOf r.data

/-- `Database.get_latest_biomes_snapshot`: over the planet rows carrying
the most recent timestamp (in scan order), keep each planet's `biome`
value when it is a dict (`biomeOf` yields `some`), keyed by its truthy
`name`, first occurrence winning; `None` when the table, the row set or
the resulting biome collection is empty.  Planet blobs are opaque in the
model, so the `biome`-field accessor is passed as a function. -/
def get_latest_biomes_snapshot (biomeOf : PlanetObj → Option BiomeObj) (db : DB) :
    Option (List BiomeObj) :=
  match maxPlanetTs db.planet_status with
  | none => none
  | some t =>
      let results := db.planet_status.filter (fun r => r.timestamp == t)
      if results.isEmpty then none
      else
        let biomes := results.foldl (fun acc r =>
          match biomeOf r.data with
          | some b =>
              match b.name with
              | some nm =>
                  if nm == "" then acc
                  else if acc.any (fun x => x.1 == nm) then acc
                  else acc ++ [(nm, b)]
              | none => acc
          | none => acc) ([] : List (String × BiomeObj))
        if biomes.isEmpty then none else some (biomes.map (fun x => x.2))

/-- `GET /api/factions` (`app.get_factions`): same live-first,
snapshot-fallback, 503-on-both-fail shape over the factions snapshot;
no database write. -/
def get_factions_endpoint (factionsOf : Nat → Option (List Nat))
    (live : Option (List Nat)) (db : DB) : ApiResult (List Nat) × DB :=
  let d := match live with
    | some x => some x
    | none => get_latest_factions_snapshot factionsOf db
  match d with
  | some x => (.ok x, db)
  | none => (.httpError 503, db)

/-- `GET /api/biomes` (`app.get_biomes`): same shape over the biomes
snapshot; no database write. -/
def get_biomes_endpoint (biomeOf : PlanetObj → Option BiomeObj)
    (live : Option (List BiomeObj)) (db : DB) : ApiResult (List BiomeObj) × DB :=
  let d := match live with
    | some x => some x
    | none => get_latest_biomes_snapshot biomeOf db
  match d with
  | some x => (.ok x, db)
  | none => (.httpError 503, db)

/-! ## Helper lemmas -/

theorem insertTsDesc_append {α : Type} (ts : α → Int) (r : α) (acc : List α)
    (h : ∀ x ∈ acc, ts r ≤ ts x) : insertTsDesc ts r acc = acc ++ [r] := by
  induction acc with
  | nil => rfl
  | cons x xs ih =>
      have hx := h x (List.mem_cons_self x xs)
      simp only [insertTsDesc, if_neg (by omega : ¬ ts x < ts r), List.cons_append]
      exact congrArg (x :: ·) (ih (fun y hy => h y (List.mem_cons_of_mem x hy)))

theorem foldl_insertTsDesc {α : Type} (ts : α → Int) (l : List α) (acc : List α)
    (hl : l.Pairwise (fun a b => ts b ≤ ts a))
    (hacc : ∀ y ∈ l, ∀ x ∈ acc, ts y ≤ ts x) :
    l.foldl (fun acc r => insertTsDesc ts r acc) acc = acc ++ l := by
  induction l generalizing acc with
  | nil => simp
  | cons r rest ih =>
      rw [List.foldl_cons,
        insertTsDesc_append ts r acc (hacc r (List.mem_cons_self r rest))]
      rw [ih (acc ++ [r]) (List.Pairwise.of_cons hl)]
      · simp
      · intro y hy x hx
        rcases List.mem_append.mp hx with hx | hx
        · exact hacc y (List.mem_cons_of_mem r hy) x hx
        · rcases List.mem_singleton.mp hx with rfl
          exact (List.pairwise_cons.mp hl).1 y hy

/-- A table whose timestamps are nondecreasing in insertion order is
returned by `ORDER BY timestamp DESC` in reverse insertion order. -/
theorem orderByTsDesc_of_monotone {α : Type} (ts : α → Int) (rows : List α)
    (h : rows.Pairwise (fun a b => ts a ≤ ts b)) :
    orderByTsDesc ts rows = rows.reverse := by
  unfold orderByTsDesc
  rw [foldl_insertTsDesc ts rows.reverse []]
  · simp
  · exact (List.pairwise_reverse).mpr h
  · intro y _ x hx
    exact absurd hx (List.not_mem_nil x)

theorem orderByTsDesc_singleton {α : Type} (ts : α → Int) (r : α) :
    orderByTsDesc ts [r] = [r] := rfl

/-- Filtering an upserted table for the upserted key yields exactly the
fresh row. -/
theorem filter_upsert {α : Type} (key : α → Int) (k : Int) (l : List α) (r : α)
    (hr : key r = k) :
    ((l.filter (fun x => key x != k)) ++ [r]).filter (fun x => key x == k) = [r] := by
  rw [List.filter_append]
  have h1 : (l.filter (fun x => key x != k)).filter (fun x => key x == k) = [] := by
    rw [List.filter_filter]
    apply List.filter_eq_nil_iff.mpr
    intro a _
    by_cases hk : key a = k <;> simp [hk]
  rw [h1]
  simp [List.filter, hr]

/-- Setting the upstream flag makes `get_upstream_status` return exactly
that flag. -/
theorem get_set_upstream (b : Bool) (now : Int) (db : DB) :
    get_upstream_status (set_upstream_status b now db) = b := by
  have hfind : (set_upstream_status b now db).system_status.find?
      (fun r => r.key == "upstream_api_available") =
      some ⟨"upstream_api_available", if b then "true" else "false", now⟩ := by
    unfold set_upstream_status update_system_status
    rw [List.find?_append]
    have h1 : (db.system_status.filter
        (fun r => r.key != "upstream_api_available")).find?
        (fun r => r.key == "upstream_api_available") = none := by
      apply List.find?_eq_none.mpr
      intro x hx
      have := (List.mem_filter.mp hx).2
      simpa using this
    rw [h1]
    simp [List.find?]
  unfold get_upstream_status get_system_status
  rw [hfind]
  cases b <;> simp

/-! ## Claim theorems -/

/-- C10. Implicit default of the upstream-availability flag: when the
system-status key "upstream_api_available" was never written,
`get_upstream_status()` returns `false`; after any successful
`set_upstream_status(b)` it returns exactly `b`. -/
theorem upstream_flag_default_roundtrip (db : DB) (b : Bool) (now : Int)
    (h : get_system_status "upstream_api_available" db = none) :
    get_upstream_status db = false ∧
      get_upstream_status (set_upstream_status b now db) = b := by
  constructor
  · unfold get_upstream_status
    rw [h]
  · exact get_set_upstream b now db

theorem upstream_flag_default_roundtrip_witness :
    get_system_status "upstream_api_available" emptyDB = none ∧
    (get_upstream_status emptyDB = false ∧
      get_upstream_status (set_upstream_status true 0 emptyDB) = true) :=
  ⟨by rfl, upstream_flag_default_roundtrip emptyDB true 0 (by rfl)⟩

/-- C9. Rate limiting: `_rate_limit` sleeps for exactly the remainder of
the 2-second minimum interval when not enough time has elapsed, so the
new recorded request time is at least `request_delay` after the previous
one, and every call sets `last_request_time` to the current (possibly
advanced) clock. -/
theorem rate_limit_spacing (s : ClockState) :
    request_delay ≤ (rate_limit s).last_request_time - s.last_request_time ∧
    (s.now - s.last_request_time < request_delay →
      rate_limit_sleep s = request_delay - (s.now - s.last_request_time)) ∧
    (¬ s.now - s.last_request_time < request_delay → rate_limit_sleep s = 0) ∧
    (rate_limit s).last_request_time = (rate_limit s).now := by
  simp only [rate_limit, rate_limit_sleep, request_delay]
  by_cases hc : s.now - s.last_request_time < 2 <;>
    simp [hc] <;> omega

theorem rate_limit_spacing_witness :
    request_delay ≤
        (rate_limit ⟨5, 4⟩).last_request_time - (⟨5, 4⟩ : ClockState).last_request_time ∧
    ((⟨5, 4⟩ : ClockState).now - (⟨5, 4⟩ : ClockState).last_request_time < request_delay →
      rate_limit_sleep ⟨5, 4⟩ =
        request_delay - ((⟨5, 4⟩ : ClockState).now - (⟨5, 4⟩ : ClockState).last_request_time)) ∧
    (¬ (⟨5, 4⟩ : ClockState).now - (⟨5, 4⟩ : ClockState).last_request_time < request_delay →
      rate_limit_sleep ⟨5, 4⟩ = 0) ∧
    (rate_limit ⟨5, 4⟩).last_request_time = (rate_limit ⟨5, 4⟩).now :=
  rate_limit_spacing ⟨5, 4⟩

/-- C6. Unique-key last-write-wins: two saves under the same key
(campaign, assignment, dispatch, planet event) leave exactly one stored
row for that key, holding the second write's content; the subsequent
latest-row read returns the second write's content. -/
theorem unique_key_last_write_wins (db : DB)
    (k p1 p2 t1 t2 : Int) (c1 c2 : CampaignObj) (a1 a2 d1 d2 : IdObj)
    (e1 e2 : EventObj) (et1 et2 : String) (lim : Nat) (hlim : 1 ≤ lim) :
    (((save_campaign k p2 c2 t2 (save_campaign k p1 c1 t1 db)).campaigns.filter
        (fun r => r.campaign_id == k)).map (fun r => r.data) = [c2]) ∧
    (((save_assignment k a2 t2 (save_assignment k a1 t1 db)).assignments.filter
        (fun r => r.assignment_id == k)).map (fun r => r.data) = [a2]) ∧
    (((save_dispatch k d2 t2 (save_dispatch k d1 t1 db)).dispatches.filter
        (fun r => r.dispatch_id == k)).map (fun r => r.data) = [d2]) ∧
    (((save_planet_event k p2 et2 e2 t2
        (save_planet_event k p1 et1 e1 t1 db)).planet_events.filter
        (fun r => r.event_id == k)).map (fun r => r.data) = [e2]) ∧
    (get_assignment lim (save_assignment k a2 t2 (save_assignment k a1 t1 emptyDB)) =
      [a2]) := by
  obtain ⟨m, rfl⟩ : ∃ m, lim = m + 1 := ⟨lim - 1, by omega⟩
  refine ⟨?_, ?_, ?_, ?_, ?_⟩
  · simp only [save_campaign]
    rw [filter_upsert (fun r : CampaignRow => r.campaign_id) k _ _ rfl]
    simp
  · simp only [save_assignment]
    rw [filter_upsert (fun r : AssignRow => r.assignment_id) k _ _ rfl]
    simp
  · simp only [save_dispatch]
    rw [filter_upsert (fun r : DispatchRow => r.dispatch_id) k _ _ rfl]
    simp
  · simp only [save_planet_event]
    rw [filter_upsert (fun r : EventRow => r.event_id) k _ _ rfl]
    simp
  · simp [save_assignment, emptyDB, get_assignment, orderByTsDesc, insertTsDesc]

theorem unique_key_last_write_wins_witness :
    1 ≤ 1 ∧
    ((((save_campaign 7 2 ⟨some 7, some 2, .absent, 11⟩ 1
        (save_campaign 7 1 ⟨some 7, some 1, .absent, 10⟩ 0 emptyDB)).campaigns.filter
        (fun r => r.campaign_id == 7)).map (fun r => r.data) =
          [⟨some 7, some 2, .absent, 11⟩]) ∧
    (((save_assignment 7 ⟨some 7, 21⟩ 1
        (save_assignment 7 ⟨some 7, 20⟩ 0 emptyDB)).assignments.filter
        (fun r => r.assignment_id == 7)).map (fun r => r.data) = [⟨some 7, 21⟩]) ∧
    (((save_dispatch 7 ⟨some 7, 31⟩ 1
        (save_dispatch 7 ⟨some 7, 30⟩ 0 emptyDB)).dispatches.filter
        (fun r => r.dispatch_id == 7)).map (fun r => r.data) = [⟨some 7, 31⟩]) ∧
    (((save_planet_event 7 2 "defense" ⟨some 7, some 2, some "defense", 41⟩ 1
        (save_planet_event 7 1 "attack" ⟨some 7, some 1, some "attack", 40⟩ 0
          emptyDB)).planet_events.filter
        (fun r => r.event_id == 7)).map (fun r => r.data) =
          [⟨some 7, some 2, some "defense", 41⟩]) ∧
    (get_assignment 1 (save_assignment 7 ⟨some 7, 21⟩ 1
        (save_assignment 7 ⟨some 7, 20⟩ 0 emptyDB)) = [⟨some 7, 21⟩])) :=
  ⟨by decide,
    unique_key_last_write_wins emptyDB 7 1 2 0 1
      ⟨some 7, some 1, .absent, 10⟩ ⟨some 7, some 2, .absent, 11⟩
      ⟨some 7, 20⟩ ⟨some 7, 21⟩ ⟨some 7, 30⟩ ⟨some 7, 31⟩
      ⟨some 7, some 1, some "attack", 40⟩ ⟨some 7, some 2, some "defense", 41⟩
      "attack" "defense" 1 (by decide)⟩

/-- C1. Campaign expiry round-trip: saving a campaign persists status
"active" exactly when its expiry is missing, unparseable or in the
future at write time ("expired" otherwise), and a later
`get_active_campaigns` includes it exactly when the expiry is missing,
unparseable or strictly in the future at query time. -/
theorem campaign_expiry_roundtrip (cid pi_ : Int) (c : CampaignObj) (tw tq : Int)
    (h : tw ≤ tq) :
    (∀ r ∈ (save_campaign cid pi_ c tw emptyDB).campaigns,
        (r.status = "active" ∨ r.status = "expired") ∧
        (r.status = "active" ↔
          (c.expiresAt = .absent ∨ c.expiresAt = .unparseable ∨
            ∃ t, c.expiresAt = .at_ t ∧ tw < t))) ∧
    (c ∈ get_active_campaigns tq (save_campaign cid pi_ c tw emptyDB) ↔
      (c.expiresAt = .absent ∨ c.expiresAt = .unparseable ∨
        ∃ t, c.expiresAt = .at_ t ∧ tq < t)) := by
  rcases hc : c.expiresAt with _ | _ | t
  · simp [save_campaign, emptyDB, campaignWriteStatus, get_active_campaigns,
      campaignReadActive, orderByTsDesc, insertTsDesc, hc]
  · simp [save_campaign, emptyDB, campaignWriteStatus, get_active_campaigns,
      campaignReadActive, orderByTsDesc, insertTsDesc, hc]
  · by_cases ht : tw < t
    · by_cases h2 : tq < t <;>
        simp [save_campaign, emptyDB, campaignWriteStatus, get_active_campaigns,
          campaignReadActive, orderByTsDesc, insertTsDesc, hc, ht, h2]
    · have h2 : ¬ tq < t := by omega
      simp [save_campaign, emptyDB, campaignWriteStatus, get_active_campaigns,
        campaignReadActive, orderByTsDesc, insertTsDesc, hc, ht, h2]

theorem campaign_expiry_roundtrip_witness :
    (0 : Int) ≤ 3 ∧
    ((∀ r ∈ (save_campaign 1 2 ⟨some 1, some 2, .at_ 5, 9⟩ 0 emptyDB).campaigns,
        (r.status = "active" ∨ r.status = "expired") ∧
        (r.status = "active" ↔
          ((⟨some 1, some 2, .at_ 5, 9⟩ : CampaignObj).expiresAt = .absent ∨
            (⟨some 1, some 2, .at_ 5, 9⟩ : CampaignObj).expiresAt = .unparseable ∨
            ∃ t, (⟨some 1, some 2, .at_ 5, 9⟩ : CampaignObj).expiresAt = .at_ t ∧
              (0 : Int) < t))) ∧
      (⟨some 1, some 2, .at_ 5, 9⟩ ∈
          get_active_campaigns 3 (save_campaign 1 2 ⟨some 1, some 2, .at_ 5, 9⟩ 0 emptyDB) ↔
        ((⟨some 1, some 2, .at_ 5, 9⟩ : CampaignObj).expiresAt = .absent ∨
          (⟨some 1, some 2, .at_ 5, 9⟩ : CampaignObj).expiresAt = .unparseable ∨
          ∃ t, (⟨some 1, some 2, .at_ 5, 9⟩ : CampaignObj).expiresAt = .at_ t ∧
            (3 : Int) < t))) :=
  ⟨by decide, campaign_expiry_roundtrip 1 2 ⟨some 1, some 2, .at_ 5, 9⟩ 0 3 (by decide)⟩

/-- C5 counterexample: the per-planet current-status read
(`get_planet_status`, no ORDER BY) does not return the most recently
inserted row: after two saves for planet 1 it returns the first write. -/
theorem planet_status_read_not_latest :
    get_planet_status 1 (save_planet_status 1 ⟨some 1, 20⟩ 2
        (save_planet_status 1 ⟨some 1, 10⟩ 1 emptyDB)) = some ⟨some 1, 10⟩ ∧
    get_planet_status 1 (save_planet_status 1 ⟨some 1, 20⟩ 2
        (save_planet_status 1 ⟨some 1, 10⟩ 1 emptyDB)) ≠ some ⟨some 1, 20⟩ := by
  decide

/-- C5 amended: `get_latest_war_status` (ORDER BY timestamp DESC, ties
resolved toward the newest rowid) returns the last-inserted row whenever
timestamps are nondecreasing in insertion order; `get_planet_status`
performs no ordering and returns the earliest-inserted row for the
planet, so a second write for the same planet is not the one read
back. -/
theorem latest_query_determinism (db : DB) (i t1 t2 : Int) (d1 d2 : PlanetObj)
    (hmono : db.war_status.Pairwise (fun a b => a.timestamp ≤ b.timestamp))
    (hfresh : ∀ r ∈ db.planet_status, r.planet_index ≠ i) :
    get_latest_war_status db = (db.war_status.getLast?).map (fun r => r.data) ∧
    get_planet_status i (save_planet_status i d1 t1 db) = some d1 ∧
    get_planet_status i (save_planet_status i d2 t2 (save_planet_status i d1 t1 db)) =
      some d1 := by
  have hnone : db.planet_status.find? (fun r => r.planet_index == i) = none := by
    apply List.find?_eq_none.mpr
    intro x hx
    simpa using hfresh x hx
  refine ⟨?_, ?_, ?_⟩
  · unfold get_latest_war_status
    rw [orderByTsDesc_of_monotone _ _ hmono, List.head?_reverse]
  · unfold get_planet_status save_planet_status
    simp only [List.find?_append, hnone]
    simp [List.find?]
  · unfold get_planet_status save_planet_status
    simp only [List.append_assoc, List.find?_append, hnone]
    simp [List.find?]

theorem latest_query_determinism_witness :
    (⟨[⟨5, 0⟩, ⟨6, 1⟩], [], [⟨9, ⟨some 9, 0⟩, 0⟩], [], [], [], [], []⟩ :
        DB).war_status.Pairwise (fun a b => a.timestamp ≤ b.timestamp) ∧
    (∀ r ∈ (⟨[⟨5, 0⟩, ⟨6, 1⟩], [], [⟨9, ⟨some 9, 0⟩, 0⟩], [], [], [], [], []⟩ :
        DB).planet_status, r.planet_index ≠ 1) ∧
    (get_latest_war_status ⟨[⟨5, 0⟩, ⟨6, 1⟩], [], [⟨9, ⟨some 9, 0⟩, 0⟩], [], [], [], [], []⟩ =
      ((⟨[⟨5, 0⟩, ⟨6, 1⟩], [], [⟨9, ⟨some 9, 0⟩, 0⟩], [], [], [], [], []⟩ :
        DB).war_status.getLast?).map (fun r => r.data) ∧
    get_planet_status 1 (save_planet_status 1 ⟨some 1, 10⟩ 2
      ⟨[⟨5, 0⟩, ⟨6, 1⟩], [], [⟨9, ⟨some 9, 0⟩, 0⟩], [], [], [], [], []⟩) = some ⟨some 1, 10⟩ ∧
    get_planet_status 1 (save_planet_status 1 ⟨some 1, 11⟩ 3
      (save_planet_status 1 ⟨some 1, 10⟩ 2
        ⟨[⟨5, 0⟩, ⟨6, 1⟩], [], [⟨9, ⟨some 9, 0⟩, 0⟩], [], [], [], [], []⟩)) =
      some ⟨some 1, 10⟩) :=
  ⟨by decide, by decide,
    latest_query_determinism _ 1 2 3 ⟨some 1, 10⟩ ⟨some 1, 11⟩ (by decide) (by decide)⟩

theorem stats_foldl (writes : List (Nat × Int)) (db : DB) :
    (writes.foldl (fun db w => save_statistics w.1 w.2 db) db).statistics =
      db.statistics ++ writes.map (fun w => ⟨w.1, w.2⟩) := by
  induction writes generalizing db with
  | nil => simp
  | cons w rest ih =>
      rw [List.foldl_cons, ih]
      simp [save_statistics]

theorem planet_foldl (writes : List (PlanetObj × Int)) (i : Int) (db : DB) :
    (writes.foldl (fun db w => save_planet_status i w.1 w.2 db) db).planet_status =
      db.planet_status ++ writes.map (fun w => ⟨i, w.1, w.2⟩) := by
  induction writes generalizing db with
  | nil => simp
  | cons w rest ih =>
      rw [List.foldl_cons, ih]
      simp [save_planet_status]

/-- C7. History query shape and order: after N strictly-clock-increasing
writes of an append-only resource (statistics; planet status history for
one planet), a history query with limit K ≤ N returns exactly the K most
recent entries, each paired with its own timestamp, newest first in
strictly decreasing timestamp order. -/
theorem history_query_shape (writesS : List (Nat × Int))
    (writesP : List (PlanetObj × Int)) (i : Int) (K : Nat)
    (hKS : K ≤ writesS.length) (hKP : K ≤ writesP.length)
    (hmS : writesS.Pairwise (fun a b => a.2 < b.2))
    (hmP : writesP.Pairwise (fun a b => a.2 < b.2)) :
    (get_statistics_history K
        (writesS.foldl (fun db w => save_statistics w.1 w.2 db) emptyDB) =
        writesS.reverse.take K ∧
      (get_statistics_history K
        (writesS.foldl (fun db w => save_statistics w.1 w.2 db) emptyDB)).length = K ∧
      (get_statistics_history K
        (writesS.foldl (fun db w => save_statistics w.1 w.2 db) emptyDB)).Pairwise
        (fun a b => b.2 < a.2)) ∧
    (get_planet_status_history i K
        (writesP.foldl (fun db w => save_planet_status i w.1 w.2 db) emptyDB) =
        writesP.reverse.take K ∧
      (get_planet_status_history i K
        (writesP.foldl (fun db w => save_planet_status i w.1 w.2 db) emptyDB)).length = K ∧
      (get_planet_status_history i K
        (writesP.foldl (fun db w => save_planet_status i w.1 w.2 db) emptyDB)).Pairwise
        (fun a b => b.2 < a.2)) := by
  have hS : get_statistics_history K
      (writesS.foldl (fun db w => save_statistics w.1 w.2 db) emptyDB) =
      writesS.reverse.take K := by
    unfold get_statistics_history
    rw [stats_foldl]
    have hmono : (writesS.map (fun w => (⟨w.1, w.2⟩ : StatsRow))).Pairwise
        (fun a b => a.timestamp ≤ b.timestamp) := by
      rw [List.pairwise_map]
      exact hmS.imp (fun hab => le_of_lt hab)
    rw [show (emptyDB.statistics ++ writesS.map (fun w => (⟨w.1, w.2⟩ : StatsRow))) =
        writesS.map (fun w => (⟨w.1, w.2⟩ : StatsRow)) from by simp [emptyDB]]
    rw [orderByTsDesc_of_monotone _ _ hmono, ← List.map_reverse, ← List.map_take,
      List.map_map]
    rw [show ((fun r : StatsRow => (r.data, r.timestamp)) ∘
        fun w : Nat × Int => (⟨w.1, w.2⟩ : StatsRow)) = id from funext fun w => rfl,
      List.map_id]
  have hP : get_planet_status_history i K
      (writesP.foldl (fun db w => save_planet_status i w.1 w.2 db) emptyDB) =
      writesP.reverse.take K := by
    unfold get_planet_status_history
    rw [planet_foldl]
    rw [show (emptyDB.planet_status ++
        writesP.map (fun w => (⟨i, w.1, w.2⟩ : PlanetRow))) =
        writesP.map (fun w => (⟨i, w.1, w.2⟩ : PlanetRow)) from by simp [emptyDB]]
    rw [show (writesP.map (fun w => (⟨i, w.1, w.2⟩ : PlanetRow))).filter
        (fun r => r.planet_index == i) =
        writesP.map (fun w => (⟨i, w.1, w.2⟩ : PlanetRow)) from by
      apply List.filter_eq_self.mpr
      intro a ha
      rcases List.mem_map.mp ha with ⟨w, _, rfl⟩
      simp]
    have hmono : (writesP.map (fun w => (⟨i, w.1, w.2⟩ : PlanetRow))).Pairwise
        (fun a b => a.timestamp ≤ b.timestamp) := by
      rw [List.pairwise_map]
      exact hmP.imp (fun hab => le_of_lt hab)
    rw [orderByTsDesc_of_monotone _ _ hmono, ← List.map_reverse, ← List.map_take,
      List.map_map]
    rw [show ((fun r : PlanetRow => (r.data, r.timestamp)) ∘
        fun w : PlanetObj × Int => (⟨i, w.1, w.2⟩ : PlanetRow)) = id from
        funext fun w => rfl,
      List.map_id]
  refine ⟨⟨hS, ?_, ?_⟩, hP, ?_, ?_⟩
  · rw [hS]
    simp [List.length_take, hKS]
  · rw [hS]
    exact ((List.pairwise_reverse.mpr hmS).sublist (List.take_sublist _ _))
  · rw [hP]
    simp [List.length_take, hKP]
  · rw [hP]
    exact ((List.pairwise_reverse.mpr hmP).sublist (List.take_sublist _ _))

theorem history_query_shape_witness :
    1 ≤ ([((10 : Nat), (1 : Int)), (20, 2)]).length ∧
    1 ≤ ([((⟨some 1, 5⟩ : PlanetObj), (1 : Int)), (⟨some 1, 6⟩, 2)]).length ∧
    ([((10 : Nat), (1 : Int)), (20, 2)]).Pairwise (fun a b => a.2 < b.2) ∧
    ([((⟨some 1, 5⟩ : PlanetObj), (1 : Int)), (⟨some 1, 6⟩, 2)]).Pairwise
      (fun a b => a.2 < b.2) ∧
    ((get_statistics_history 1
        (([((10 : Nat), (1 : Int)), (20, 2)]).foldl
          (fun db w => save_statistics w.1 w.2 db) emptyDB) =
        ([((10 : Nat), (1 : Int)), (20, 2)]).reverse.take 1 ∧
      (get_statistics_history 1
        (([((10 : Nat), (1 : Int)), (20, 2)]).foldl
          (fun db w => save_statistics w.1 w.2 db) emptyDB)).length = 1 ∧
      (get_statistics_history 1
        (([((10 : Nat), (1 : Int)), (20, 2)]).foldl
          (fun db w => save_statistics w.1 w.2 db) emptyDB)).Pairwise
        (fun a b => b.2 < a.2)) ∧
    (get_planet_status_history 1 1
        (([((⟨some 1, 5⟩ : PlanetObj), (1 : Int)), (⟨some 1, 6⟩, 2)]).foldl
          (fun db w => save_planet_status 1 w.1 w.2 db) emptyDB) =
        ([((⟨some 1, 5⟩ : PlanetObj), (1 : Int)), (⟨some 1, 6⟩, 2)]).reverse.take 1 ∧
      (get_planet_status_history 1 1
        (([((⟨some 1, 5⟩ : PlanetObj), (1 : Int)), (⟨some 1, 6⟩, 2)]).foldl
          (fun db w => save_planet_status 1 w.1 w.2 db) emptyDB)).length = 1 ∧
      (get_planet_status_history 1 1
        (([((⟨some 1, 5⟩ : PlanetObj), (1 : Int)), (⟨some 1, 6⟩, 2)]).foldl
          (fun db w => save_planet_status 1 w.1 w.2 db) emptyDB)).Pairwise
        (fun a b => b.2 < a.2))) :=
  ⟨by decide, by decide, by decide, by decide,
    history_query_shape [(10, 1), (20, 2)] [(⟨some 1, 5⟩, 1), (⟨some 1, 6⟩, 2)] 1 1
      (by decide) (by decide) (by decide) (by decide)⟩

/-- C4 counterexample: the collector guards persistence with Python
truthiness, so a planet whose `index` is `0` (non-null!) is skipped: the
cycle writes nothing for it.  The same guard also skips a campaign whose
planet index is `0`. -/
theorem collector_skips_planet_index_zero :
    collect_planets_step (some [⟨some 0, 7⟩]) 0 emptyDB = emptyDB ∧
    ((⟨some 0, 7⟩ : PlanetObj).index ≠ none) ∧
    collect_campaigns_step (some [⟨some 1, some 0, .absent, 8⟩]) 0 emptyDB = emptyDB := by
  decide

theorem collect_planets_step_spec (ps : List PlanetObj) (now : Int) (db : DB) :
    (collect_planets_step (some ps) now db).planet_status =
      db.planet_status ++ (ps.filter (fun p => truthyInt p.index)).map
        (fun p => ⟨p.index.getD 0, p, now⟩) := by
  induction ps generalizing db with
  | nil => simp [collect_planets_step]
  | cons p rest ih =>
      have step : collect_planets_step (some (p :: rest)) now db =
          collect_planets_step (some rest) now
            (match p.index with
             | some i => if i != 0 then save_planet_status i p now db else db
             | none => db) := rfl
      rw [step]
      cases hpi : p.index with
      | none =>
          simp only [hpi, ih]
          simp [truthyInt, hpi]
      | some i =>
          by_cases hi : i = 0
          · subst hi
            simp only [hpi]
            rw [show ((0 : Int) != 0) = false from rfl]
            simp only [if_false, ih]
            simp [truthyInt, hpi]
          · simp only [hpi]
            rw [show ((i : Int) != 0) = true from by simpa using hi]
            simp only [if_true, ih, save_planet_status]
            simp [truthyInt, hpi, hi]

theorem campaigns_fold_preserves (l : List CampaignObj) (now : Int) (db : DB) (k : Int)
    (h : ∃ r ∈ db.campaigns, r.campaign_id = k) :
    ∃ r ∈ (collect_campaigns_step (some l) now db).campaigns, r.campaign_id = k := by
  induction l generalizing db with
  | nil => exact h
  | cons c rest ih =>
      have step : collect_campaigns_step (some (c :: rest)) now db =
          collect_campaigns_step (some rest) now
            (match c.id, c.planet with
             | some cid, some pi_ =>
                 if cid != 0 && pi_ != 0 then save_campaign cid pi_ c now db else db
             | _, _ => db) := rfl
      rw [step]
      apply ih
      rcases hcid : c.id with _ | cid
      · simpa [hcid] using h
      · rcases hcpl : c.planet with _ | pl
        · simpa [hcid, hcpl] using h
        · by_cases hg : (cid != 0 && pl != 0) = true
          · simp only [hcid, hcpl, hg, if_true]
            by_cases hk : cid = k
            · exact ⟨⟨cid, pl, campaignWriteStatus now c.expiresAt, c, now⟩,
                by simp [save_campaign], hk⟩
            · rcases h with ⟨r, hr, hrk⟩
              refine ⟨r, ?_, hrk⟩
              simp only [save_campaign, List.mem_append]
              left
              apply List.mem_filter.mpr
              exact ⟨hr, by simp [hrk, hk, Ne.symm hk]⟩
          · simp only [hcid, hcpl]
            rw [if_neg (by simpa using hg)]
            exact h

/-- C4 amended: within one cycle every planet whose `index` field is
truthy (present and non-zero) is persisted — in exactly batch order —
while planets with a missing or zero index are skipped without aborting
the batch; every campaign whose `id` and planet index are both truthy
ends the campaigns step with a row stored under its id. -/
theorem collector_persistence_coverage (ps : List PlanetObj) (cs : List CampaignObj)
    (now : Int) (db : DB) (c : CampaignObj) (hc : c ∈ cs)
    (hid : truthyInt c.id = true) (hpl : truthyInt c.planet = true) :
    (collect_planets_step (some ps) now db).planet_status =
      db.planet_status ++ (ps.filter (fun p => truthyInt p.index)).map
        (fun p => ⟨p.index.getD 0, p, now⟩) ∧
    ∃ r ∈ (collect_campaigns_step (some cs) now db).campaigns,
      r.campaign_id = c.id.getD 0 := by
  refine ⟨collect_planets_step_spec ps now db, ?_⟩
  rcases hcid : c.id with _ | cid
  · rw [hcid] at hid
    simp [truthyInt] at hid
  · rcases hcpl : c.planet with _ | pl
    · rw [hcpl] at hpl
      simp [truthyInt] at hpl
    · rw [hcid] at hid
      rw [hcpl] at hpl
      simp only [truthyInt] at hid hpl
      induction cs generalizing db with
      | nil => exact absurd hc (List.not_mem_nil c)
      | cons c0 rest ih =>
          have step : collect_campaigns_step (some (c0 :: rest)) now db =
              collect_campaigns_step (some rest) now
                (match c0.id, c0.planet with
                 | some cid0, some pi0 =>
                     if cid0 != 0 && pi0 != 0 then save_campaign cid0 pi0 c0 now db
                     else db
                 | _, _ => db) := rfl
          rw [step]
          rcases List.mem_cons.mp hc with rfl | hmem
          · apply campaigns_fold_preserves
            simp only [hcid, hcpl, hid, hpl, Bool.and_self, if_true]
            refine ⟨⟨cid, pl, campaignWriteStatus now c.expiresAt, c, now⟩,
              by simp [save_campaign], by simp [hcid]⟩
          · exact ih _ hmem

theorem collector_persistence_coverage_witness :
    (⟨some 3, some 2, .absent, 9⟩ : CampaignObj) ∈
      [(⟨some 3, some 2, .absent, 9⟩ : CampaignObj)] ∧
    truthyInt (⟨some 3, some 2, .absent, 9⟩ : CampaignObj).id = true ∧
    truthyInt (⟨some 3, some 2, .absent, 9⟩ : CampaignObj).planet = true ∧
    ((collect_planets_step (some [⟨some 2, 5⟩, ⟨some 0, 6⟩]) 0 emptyDB).planet_status =
      emptyDB.planet_status ++
        (([(⟨some 2, 5⟩ : PlanetObj), ⟨some 0, 6⟩]).filter
          (fun p => truthyInt p.index)).map (fun p => ⟨p.index.getD 0, p, 0⟩) ∧
    ∃ r ∈ (collect_campaigns_step (some [⟨some 3, some 2, .absent, 9⟩]) 0
        emptyDB).campaigns,
      r.campaign_id = (⟨some 3, some 2, .absent, 9⟩ : CampaignObj).id.getD 0) :=
  ⟨by decide, by decide, by decide,
    collector_persistence_coverage [⟨some 2, 5⟩, ⟨some 0, 6⟩]
      [⟨some 3, some 2, .absent, 9⟩] 0 emptyDB ⟨some 3, some 2, .absent, 9⟩
      (by decide) (by decide) (by decide)⟩

/-- C3 counterexample: a successful live fetch is returned but NOT
written through to the cache store — after serving a live campaign list
over an empty database, the campaigns table is still empty. -/
theorem fallback_no_write_through_counterexample :
    (get_campaigns_endpoint (some [⟨some 1, some 2, .absent, 3⟩]) emptyDB).1 =
      .ok [⟨some 1, some 2, .absent, 3⟩] ∧
    ((get_campaigns_endpoint (some [⟨some 1, some 2, .absent, 3⟩]) emptyDB).2).campaigns
      = [] := by
  decide

/-- C3 amended: for all four fallback-capable read endpoints
(campaigns, planets, factions, biomes), a successful live fetch is
returned as-is — for any database state, so the cache is neither
consulted nor written; a live fetch returning no data falls back to the
snapshot, yielding 503 only when the snapshot is also absent; a live
fetch succeeding with an empty collection yields a 200 empty list. -/
theorem fallback_facade_contract (db : DB) (x : List CampaignObj)
    (xp : List PlanetObj) (fof : Nat → Option (List Nat)) (xf : List Nat)
    (bof : PlanetObj → Option BiomeObj) (xb : List BiomeObj) :
    get_campaigns_endpoint (some x) db = (.ok x, db) ∧
    get_campaigns_endpoint none db =
      (match get_latest_campaigns_snapshot db with
       | some y => (.ok y, db)
       | none => (.httpError 503, db)) ∧
    get_campaigns_endpoint (some []) db = (.ok [], db) ∧
    get_planets_endpoint (some xp) db = (.ok xp, db) ∧
    get_planets_endpoint none db =
      (match get_latest_planets_snapshot db with
       | some y => (.ok y, db)
       | none => (.httpError 503, db)) ∧
    get_planets_endpoint (some []) db = (.ok [], db) ∧
    get_factions_endpoint fof (some xf) db = (.ok xf, db) ∧
    get_factions_endpoint fof none db =
      (match get_latest_factions_snapshot fof db with
       | some y => (.ok y, db)
       | none => (.httpError 503, db)) ∧
    get_factions_endpoint fof (some []) db = (.ok [], db) ∧
    get_biomes_endpoint bof (some xb) db = (.ok xb, db) ∧
    get_biomes_endpoint bof none db =
      (match get_latest_biomes_snapshot bof db with
       | some y => (.ok y, db)
       | none => (.httpError 503, db)) ∧
    get_biomes_endpoint bof (some []) db = (.ok [], db) := by
  refine ⟨rfl, ?_, rfl, rfl, ?_, rfl, rfl, ?_, rfl, rfl, ?_, rfl⟩
  · unfold get_campaigns_endpoint
    cases get_latest_campaigns_snapshot db <;> rfl
  · unfold get_planets_endpoint
    cases get_latest_planets_snapshot db <;> rfl
  · unfold get_factions_endpoint
    cases get_latest_factions_snapshot fof db <;> rfl
  · unfold get_biomes_endpoint
    cases get_latest_biomes_snapshot bof db <;> rfl

theorem fetchGo_429_ok (resp : Nat → UpResponse) (d : Nat) :
    ∀ (k fuel i : Nat) (acc : List Nat),
      k + 1 ≤ fuel →
      (∀ j, j < k → resp (i + j) = .http 429) →
      resp (i + k) = .ok d →
      fetchGo resp fuel i acc =
        ⟨some d, i + k + 1, acc.reverse ++ (List.range k).map (fun j => 2 ^ (i + j))⟩ := by
  intro k
  induction k with
  | zero =>
      intro fuel i acc hf h429 hok
      obtain ⟨f, rfl⟩ : ∃ f, fuel = f + 1 := ⟨fuel - 1, by omega⟩
      rw [show i + 0 = i from rfl] at hok
      simp [fetchGo, hok]
  | succ k ihk =>
      intro fuel i acc hf h429 hok
      obtain ⟨f, rfl⟩ : ∃ f, fuel = f + 1 := ⟨fuel - 1, by omega⟩
      have h0 : resp i = .http 429 := by simpa using h429 0 (Nat.succ_pos k)
      simp only [fetchGo, h0]
      rw [show ((429 : Nat) == 429) = true from rfl]
      simp only [if_true]
      rw [ihk f (i + 1) (2 ^ i :: acc) (by omega)
        (fun j hj => by
          have := h429 (j + 1) (by omega)
          rwa [show i + (j + 1) = i + 1 + j from by omega] at this)
        (by rwa [show i + (k + 1) = i + 1 + k from by omega] at hok)]
      have hfn : (fun j => 2 ^ (i + (j + 1))) = (fun j => 2 ^ (i + 1 + j)) :=
        funext fun j => by rw [show i + (j + 1) = i + 1 + j from by omega]
      have hrange : (List.range (k + 1)).map (fun j => 2 ^ (i + j)) =
          2 ^ i :: (List.range k).map (fun j => 2 ^ (i + 1 + j)) := by
        rw [List.range_succ_eq_map, List.map_cons, List.map_map]
        refine congrArg₂ _ (by simp) ?_
        rw [show ((fun j => 2 ^ (i + j)) ∘ Nat.succ) = fun j => 2 ^ (i + (j + 1)) from
          rfl, hfn]
      refine congrArg₂ _ (by omega) ?_
      rw [hrange]
      simp

/-- C2. Upstream retry/backoff (the spec-modelled `_fetch_with_backoff`
exercised by the repository's tests): a run of k consecutive 429
responses followed by a 2xx yields the 2xx's data in k+1 attempts with
exponential backoff sleeps, provided k+1 attempts are allowed; a non-429
HTTP error, a network error or a timeout yields "unavailable" (none)
after a single attempt with no retry and no backoff sleep. -/
theorem fetch_backoff_retry_classification (resp : Nat → UpResponse)
    (max_retries k d s : Nat)
    (hk : k + 1 ≤ max_retries)
    (h429 : ∀ j, j < k → resp j = .http 429)
    (hok : resp k = .ok d)
    (hs : s ≠ 429) :
    (fetch_with_backoff resp max_retries =
      ⟨some d, k + 1, (List.range k).map (fun j => 2 ^ j)⟩) ∧
    (fetch_with_backoff (fun _ => .http s) max_retries = ⟨none, 1, []⟩) ∧
    (fetch_with_backoff (fun _ => .netError) max_retries = ⟨none, 1, []⟩) ∧
    (fetch_with_backoff (fun _ => .timeout) max_retries = ⟨none, 1, []⟩) := by
  obtain ⟨f, rfl⟩ : ∃ f, max_retries = f + 1 := ⟨max_retries - 1, by omega⟩
  refine ⟨?_, ?_, ?_, ?_⟩
  · unfold fetch_with_backoff
    rw [fetchGo_429_ok resp d k (f + 1) 0 [] hk
      (fun j hj => by simpa using h429 j hj) (by simpa using hok)]
    refine congrArg₂ _ (by omega) ?_
    simp
  · have hb : ((s == 429) = false) := by simpa using hs
    simp [fetch_with_backoff, fetchGo, hb]
  · rfl
  · rfl

theorem fetch_backoff_retry_classification_witness :
    1 + 1 ≤ 3 ∧
    (∀ j, j < 1 → (fun n => if n = 0 then UpResponse.http 429 else .ok 7) j =
      .http 429) ∧
    ((fun n => if n = 0 then UpResponse.http 429 else .ok 7) 1 = .ok 7) ∧
    (500 : Nat) ≠ 429 ∧
    ((fetch_with_backoff (fun n => if n = 0 then UpResponse.http 429 else .ok 7) 3 =
      ⟨some 7, 1 + 1, (List.range 1).map (fun j => 2 ^ j)⟩) ∧
    (fetch_with_backoff (fun _ => .http 500) 3 = ⟨none, 1, []⟩) ∧
    (fetch_with_backoff (fun _ => .netError) 3 = ⟨none, 1, []⟩) ∧
    (fetch_with_backoff (fun _ => .timeout) 3 = ⟨none, 1, []⟩)) :=
  ⟨by decide,
    fun j hj => by
      have hj0 : j = 0 := by omega
      subst hj0
      rfl,
    by rfl, by decide,
    fetch_backoff_retry_classification
      (fun n => if n = 0 then UpResponse.http 429 else .ok 7) 3 1 7 500
      (by decide)
      (fun j hj => by
        have hj0 : j = 0 := by omega
        subst hj0
        rfl)
      (by rfl) (by decide)⟩

/-- Does this fetch model a raised exception? -/
def exceptErr {α : Type} : Except Unit α → Bool
  | .error _ => true
  | .ok _ => false

/-- Did any of the seven fetches of the cycle raise? -/
def anyErr (f : FetchResults) : Bool :=
  exceptErr f.war || exceptErr f.stats || exceptErr f.planets ||
    exceptErr f.campaigns || exceptErr f.assignments || exceptErr f.dispatches ||
    exceptErr f.events

theorem foldl_fix {α β : Type} (proj : DB → β) (g : DB → α → DB)
    (hg : ∀ db a, proj (g db a) = proj db) (l : List α) :
    ∀ db : DB, proj (l.foldl g db) = proj db := by
  induction l with
  | nil => intro db; rfl
  | cons a rest ih =>
      intro db
      rw [List.foldl_cons, ih, hg]

theorem collect_war_step_stats (w : Option Nat) (now : Int) (db : DB) :
    (collect_war_step w now db).statistics = db.statistics := by
  cases w <;> rfl

theorem collect_war_step_planets (w : Option Nat) (now : Int) (db : DB) :
    (collect_war_step w now db).planet_status = db.planet_status := by
  cases w <;> rfl

theorem collect_stats_step_war (s : Option Nat) (now : Int) (db : DB) :
    (collect_stats_step s now db).war_status = db.war_status := by
  cases s <;> rfl

theorem collect_stats_step_planets (s : Option Nat) (now : Int) (db : DB) :
    (collect_stats_step s now db).planet_status = db.planet_status := by
  cases s <;> rfl

theorem collect_planets_step_war (ps : Option (List PlanetObj)) (now : Int) (db : DB) :
    (collect_planets_step ps now db).war_status = db.war_status := by
  cases ps with
  | none => rfl
  | some l =>
      exact foldl_fix (fun db => db.war_status) _
        (fun db p => by
          rcases p.index with _ | i
          · rfl
          · by_cases hi : (i != 0) = true <;> simp [hi, save_planet_status]) l db

theorem collect_planets_step_stats (ps : Option (List PlanetObj)) (now : Int) (db : DB) :
    (collect_planets_step ps now db).statistics = db.statistics := by
  cases ps with
  | none => rfl
  | some l =>
      exact foldl_fix (fun db => db.statistics) _
        (fun db p => by
          rcases p.index with _ | i
          · rfl
          · by_cases hi : (i != 0) = true <;> simp [hi, save_planet_status]) l db

theorem collect_campaigns_step_war (cs : Option (List CampaignObj)) (now : Int)
    (db : DB) :
    (collect_campaigns_step cs now db).war_status = db.war_status := by
  cases cs with
  | none => rfl
  | some l =>
      exact foldl_fix (fun db => db.war_status) _
        (fun db c => by
          rcases c.id with _ | cid
          · rfl
          · rcases c.planet with _ | pl
            · rfl
            · by_cases hg : (cid != 0 && pl != 0) = true <;>
                simp [hg, save_campaign]) l db

theorem collect_campaigns_step_stats (cs : Option (List CampaignObj)) (now : Int)
    (db : DB) :
    (collect_campaigns_step cs now db).statistics = db.statistics := by
  cases cs with
  | none => rfl
  | some l =>
      exact foldl_fix (fun db => db.statistics) _
        (fun db c => by
          rcases c.id with _ | cid
          · rfl
          · rcases c.planet with _ | pl
            · rfl
            · by_cases hg : (cid != 0 && pl != 0) = true <;>
                simp [hg, save_campaign]) l db

theorem collect_campaigns_step_planets (cs : Option (List CampaignObj)) (now : Int)
    (db : DB) :
    (collect_campaigns_step cs now db).planet_status = db.planet_status := by
  cases cs with
  | none => rfl
  | some l =>
      exact foldl_fix (fun db => db.planet_status) _
        (fun db c => by
          rcases c.id with _ | cid
          · rfl
          · rcases c.planet with _ | pl
            · rfl
            · by_cases hg : (cid != 0 && pl != 0) = true <;>
                simp [hg, save_campaign]) l db

theorem save_assignments_war (l : List IdObj) (now : Int) (db : DB) :
    (save_assignments l now db).war_status = db.war_status := by
  exact foldl_fix (fun db => db.war_status) _
    (fun db a => by
      rcases a.id with _ | i
      · rfl
      · by_cases hi : (i != 0) = true <;> simp [hi, save_assignment]) l db

theorem save_assignments_stats (l : List IdObj) (now : Int) (db : DB) :
    (save_assignments l now db).statistics = db.statistics := by
  exact foldl_fix (fun db => db.statistics) _
    (fun db a => by
      rcases a.id with _ | i
      · rfl
      · by_cases hi : (i != 0) = true <;> simp [hi, save_assignment]) l db

theorem save_assignments_planets (l : List IdObj) (now : Int) (db : DB) :
    (save_assignments l now db).planet_status = db.planet_status := by
  exact foldl_fix (fun db => db.planet_status) _
    (fun db a => by
      rcases a.id with _ | i
      · rfl
      · by_cases hi : (i != 0) = true <;> simp [hi, save_assignment]) l db

theorem save_dispatches_war (l : List IdObj) (now : Int) (db : DB) :
    (save_dispatches l now db).war_status = db.war_status := by
  exact foldl_fix (fun db => db.war_status) _
    (fun db a => by
      rcases a.id with _ | i
      · rfl
      · by_cases hi : (i != 0) = true <;> simp [hi, save_dispatch]) l db

theorem save_dispatches_stats (l : List IdObj) (now : Int) (db : DB) :
    (save_dispatches l now db).statistics = db.statistics := by
  exact foldl_fix (fun db => db.statistics) _
    (fun db a => by
      rcases a.id with _ | i
      · rfl
      · by_cases hi : (i != 0) = true <;> simp [hi, save_dispatch]) l db

theorem save_dispatches_planets (l : List IdObj) (now : Int) (db : DB) :
    (save_dispatches l now db).planet_status = db.planet_status := by
  exact foldl_fix (fun db => db.planet_status) _
    (fun db a => by
      rcases a.id with _ | i
      · rfl
      · by_cases hi : (i != 0) = true <;> simp [hi, save_dispatch]) l db

theorem save_planet_events_war (l : List EventObj) (now : Int) (db : DB) :
    (save_planet_events l now db).war_status = db.war_status := by
  exact foldl_fix (fun db => db.war_status) _
    (fun db e => by
      rcases e.id with _ | i
      · rfl
      · rcases e.planetIndex with _ | pl
        · rfl
        · by_cases hg : (i != 0 && pl != 0) = true <;>
            simp [hg, save_planet_event]) l db

theorem save_planet_events_stats (l : List EventObj) (now : Int) (db : DB) :
    (save_planet_events l now db).statistics = db.statistics := by
  exact foldl_fix (fun db => db.statistics) _
    (fun db e => by
      rcases e.id with _ | i
      · rfl
      · rcases e.planetIndex with _ | pl
        · rfl
        · by_cases hg : (i != 0 && pl != 0) = true <;>
            simp [hg, save_planet_event]) l db

theorem save_planet_events_planets (l : List EventObj) (now : Int) (db : DB) :
    (save_planet_events l now db).planet_status = db.planet_status := by
  exact foldl_fix (fun db => db.planet_status) _
    (fun db e => by
      rcases e.id with _ | i
      · rfl
      · rcases e.planetIndex with _ | pl
        · rfl
        · by_cases hg : (i != 0 && pl != 0) = true <;>
            simp [hg, save_planet_event]) l db

theorem collect_assignments_step_war (as_ : Option (List IdObj)) (now : Int) (db : DB) :
    (collect_assignments_step as_ now db).war_status = db.war_status := by
  cases as_ with
  | none => rfl
  | some l =>
      by_cases he : l.isEmpty <;> simp [collect_assignments_step, he, save_assignments_war]

theorem collect_assignments_step_stats (as_ : Option (List IdObj)) (now : Int)
    (db : DB) :
    (collect_assignments_step as_ now db).statistics = db.statistics := by
  cases as_ with
  | none => rfl
  | some l =>
      by_cases he : l.isEmpty <;>
        simp [collect_assignments_step, he, save_assignments_stats]

theorem collect_assignments_step_planets (as_ : Option (List IdObj)) (now : Int)
    (db : DB) :
    (collect_assignments_step as_ now db).planet_status = db.planet_status := by
  cases as_ with
  | none => rfl
  | some l =>
      by_cases he : l.isEmpty <;>
        simp [collect_assignments_step, he, save_assignments_planets]

theorem collect_dispatches_step_war (ds : Option (List IdObj)) (now : Int) (db : DB) :
    (collect_dispatches_step ds now db).war_status = db.war_status := by
  cases ds with
  | none => rfl
  | some l =>
      by_cases he : l.isEmpty <;> simp [collect_dispatches_step, he, save_dispatches_war]

theorem collect_dispatches_step_stats (ds : Option (List IdObj)) (now : Int) (db : DB) :
    (collect_dispatches_step ds now db).statistics = db.statistics := by
  cases ds with
  | none => rfl
  | some l =>
      by_cases he : l.isEmpty <;>
        simp [collect_dispatches_step, he, save_dispatches_stats]

theorem collect_dispatches_step_planets (ds : Option (List IdObj)) (now : Int)
    (db : DB) :
    (collect_dispatches_step ds now db).planet_status = db.planet_status := by
  cases ds with
  | none => rfl
  | some l =>
      by_cases he : l.isEmpty <;>
        simp [collect_dispatches_step, he, save_dispatches_planets]

theorem collect_events_step_war (es : Option (List EventObj)) (now : Int) (db : DB) :
    (collect_events_step es now db).war_status = db.war_status := by
  cases es with
  | none => rfl
  | some l =>
      by_cases he : l.isEmpty <;> simp [collect_events_step, he, save_planet_events_war]

theorem collect_events_step_stats (es : Option (List EventObj)) (now : Int) (db : DB) :
    (collect_events_step es now db).statistics = db.statistics := by
  cases es with
  | none => rfl
  | some l =>
      by_cases he : l.isEmpty <;>
        simp [collect_events_step, he, save_planet_events_stats]

theorem collect_events_step_planets (es : Option (List EventObj)) (now : Int)
    (db : DB) :
    (collect_events_step es now db).planet_status = db.planet_status := by
  cases es with
  | none => rfl
  | some l =>
      by_cases he : l.isEmpty <;>
        simp [collect_events_step, he, save_planet_events_planets]

theorem set_upstream_status_war (b : Bool) (now : Int) (db : DB) :
    (set_upstream_status b now db).war_status = db.war_status := rfl

theorem set_upstream_status_stats (b : Bool) (now : Int) (db : DB) :
    (set_upstream_status b now db).statistics = db.statistics := rfl

theorem set_upstream_status_planets (b : Bool) (now : Int) (db : DB) :
    (set_upstream_status b now db).planet_status = db.planet_status := rfl

theorem collect_war_step_campaigns (w : Option Nat) (now : Int) (db : DB) :
    (collect_war_step w now db).campaigns = db.campaigns := by
  cases w <;> rfl

theorem collect_war_step_assignments (w : Option Nat) (now : Int) (db : DB) :
    (collect_war_step w now db).assignments = db.assignments := by
  cases w <;> rfl

theorem collect_war_step_dispatches (w : Option Nat) (now : Int) (db : DB) :
    (collect_war_step w now db).dispatches = db.dispatches := by
  cases w <;> rfl

theorem collect_war_step_events (w : Option Nat) (now : Int) (db : DB) :
    (collect_war_step w now db).planet_events = db.planet_events := by
  cases w <;> rfl

theorem collect_stats_step_campaigns (s : Option Nat) (now : Int) (db : DB) :
    (collect_stats_step s now db).campaigns = db.campaigns := by
  cases s <;> rfl

theorem collect_stats_step_assignments (s : Option Nat) (now : Int) (db : DB) :
    (collect_stats_step s now db).assignments = db.assignments := by
  cases s <;> rfl

theorem collect_stats_step_dispatches (s : Option Nat) (now : Int) (db : DB) :
    (collect_stats_step s now db).dispatches = db.dispatches := by
  cases s <;> rfl

theorem collect_stats_step_events (s : Option Nat) (now : Int) (db : DB) :
    (collect_stats_step s now db).planet_events = db.planet_events := by
  cases s <;> rfl

theorem collect_planets_step_campaigns (ps : Option (List PlanetObj)) (now : Int)
    (db : DB) :
    (collect_planets_step ps now db).campaigns = db.campaigns := by
  cases ps with
  | none => rfl
  | some l =>
      exact foldl_fix (fun db => db.campaigns) _
        (fun db p => by
          rcases p.index with _ | i
          · rfl
          · by_cases hi : (i != 0) = true <;> simp [hi, save_planet_status]) l db

theorem collect_planets_step_assignments (ps : Option (List PlanetObj)) (now : Int)
    (db : DB) :
    (collect_planets_step ps now db).assignments = db.assignments := by
  cases ps with
  | none => rfl
  | some l =>
      exact foldl_fix (fun db => db.assignments) _
        (fun db p => by
          rcases p.index with _ | i
          · rfl
          · by_cases hi : (i != 0) = true <;> simp [hi, save_planet_status]) l db

theorem collect_planets_step_dispatches (ps : Option (List PlanetObj)) (now : Int)
    (db : DB) :
    (collect_planets_step ps now db).dispatches = db.dispatches := by
  cases ps with
  | none => rfl
  | some l =>
      exact foldl_fix (fun db => db.dispatches) _
        (fun db p => by
          rcases p.index with _ | i
          · rfl
          · by_cases hi : (i != 0) = true <;> simp [hi, save_planet_status]) l db

theorem collect_planets_step_events (ps : Option (List PlanetObj)) (now : Int)
    (db : DB) :
    (collect_planets_step ps now db).planet_events = db.planet_events := by
  cases ps with
  | none => rfl
  | some l =>
      exact foldl_fix (fun db => db.planet_events) _
        (fun db p => by
          rcases p.index with _ | i
          · rfl
          · by_cases hi : (i != 0) = true <;> simp [hi, save_planet_status]) l db

theorem collect_campaigns_step_assignments (cs : Option (List CampaignObj)) (now : Int)
    (db : DB) :
    (collect_campaigns_step cs now db).assignments = db.assignments := by
  cases cs with
  | none => rfl
  | some l =>
      exact foldl_fix (fun db => db.assignments) _
        (fun db c => by
          rcases c.id with _ | cid
          · rfl
          · rcases c.planet with _ | pl
            · rfl
            · by_cases hg : (cid != 0 && pl != 0) = true <;>
                simp [hg, save_campaign]) l db

theorem collect_campaigns_step_dispatches (cs : Option (List CampaignObj)) (now : Int)
    (db : DB) :
    (collect_campaigns_step cs now db).dispatches = db.dispatches := by
  cases cs with
  | none => rfl
  | some l =>
      exact foldl_fix (fun db => db.dispatches) _
        (fun db c => by
          rcases c.id with _ | cid
          · rfl
          · rcases c.planet with _ | pl
            · rfl
            · by_cases hg : (cid != 0 && pl != 0) = true <;>
                simp [hg, save_campaign]) l db

theorem collect_campaigns_step_events (cs : Option (List CampaignObj)) (now : Int)
    (db : DB) :
    (collect_campaigns_step cs now db).planet_events = db.planet_events := by
  cases cs with
  | none => rfl
  | some l =>
      exact foldl_fix (fun db => db.planet_events) _
        (fun db c => by
          rcases c.id with _ | cid
          · rfl
          · rcases c.planet with _ | pl
            · rfl
            · by_cases hg : (cid != 0 && pl != 0) = true <;>
                simp [hg, save_campaign]) l db

theorem save_assignments_campaigns (l : List IdObj) (now : Int) (db : DB) :
    (save_assignments l now db).campaigns = db.campaigns := by
  exact foldl_fix (fun db => db.campaigns) _
    (fun db a => by
      rcases a.id with _ | i
      · rfl
      · by_cases hi : (i != 0) = true <;> simp [hi, save_assignment]) l db

theorem save_assignments_dispatches (l : List IdObj) (now : Int) (db : DB) :
    (save_assignments l now db).dispatches = db.dispatches := by
  exact foldl_fix (fun db => db.dispatches) _
    (fun db a => by
      rcases a.id with _ | i
      · rfl
      · by_cases hi : (i != 0) = true <;> simp [hi, save_assignment]) l db

theorem save_assignments_events (l : List IdObj) (now : Int) (db : DB) :
    (save_assignments l now db).planet_events = db.planet_events := by
  exact foldl_fix (fun db => db.planet_events) _
    (fun db a => by
      rcases a.id with _ | i
      · rfl
      · by_cases hi : (i != 0) = true <;> simp [hi, save_assignment]) l db

theorem save_dispatches_campaigns (l : List IdObj) (now : Int) (db : DB) :
    (save_dispatches l now db).campaigns = db.campaigns := by
  exact foldl_fix (fun db => db.campaigns) _
    (fun db a => by
      rcases a.id with _ | i
      · rfl
      · by_cases hi : (i != 0) = true <;> simp [hi, save_dispatch]) l db

theorem save_dispatches_assignments (l : List IdObj) (now : Int) (db : DB) :
    (save_dispatches l now db).assignments = db.assignments := by
  exact foldl_fix (fun db => db.assignments) _
    (fun db a => by
      rcases a.id with _ | i
      · rfl
      · by_cases hi : (i != 0) = true <;> simp [hi, save_dispatch]) l db

theorem save_dispatches_events (l : List IdObj) (now : Int) (db : DB) :
    (save_dispatches l now db).planet_events = db.planet_events := by
  exact foldl_fix (fun db => db.planet_events) _
    (fun db a => by
      rcases a.id with _ | i
      · rfl
      · by_cases hi : (i != 0) = true <;> simp [hi, save_dispatch]) l db

theorem save_planet_events_campaigns (l : List EventObj) (now : Int) (db : DB) :
    (save_planet_events l now db).campaigns = db.campaigns := by
  exact foldl_fix (fun db => db.campaigns) _
    (fun db e => by
      rcases e.id with _ | i
      · rfl
      · rcases e.planetIndex with _ | pl
        · rfl
        · by_cases hg : (i != 0 && pl != 0) = true <;>
            simp [hg, save_planet_event]) l db

theorem save_planet_events_assignments (l : List EventObj) (now : Int) (db : DB) :
    (save_planet_events l now db).assignments = db.assignments := by
  exact foldl_fix (fun db => db.assignments) _
    (fun db e => by
      rcases e.id with _ | i
      · rfl
      · rcases e.planetIndex with _ | pl
        · rfl
        · by_cases hg : (i != 0 && pl != 0) = true <;>
            simp [hg, save_planet_event]) l db

theorem save_planet_events_dispatches (l : List EventObj) (now : Int) (db : DB) :
    (save_planet_events l now db).dispatches = db.dispatches := by
  exact foldl_fix (fun db => db.dispatches) _
    (fun db e => by
      rcases e.id with _ | i
      · rfl
      · rcases e.planetIndex with _ | pl
        · rfl
        · by_cases hg : (i != 0 && pl != 0) = true <;>
            simp [hg, save_planet_event]) l db

theorem collect_assignments_step_campaigns (as_ : Option (List IdObj)) (now : Int)
    (db : DB) :
    (collect_assignments_step as_ now db).campaigns = db.campaigns := by
  cases as_ with
  | none => rfl
  | some l =>
      by_cases he : l.isEmpty <;>
        simp [collect_assignments_step, he, save_assignments_campaigns]

theorem collect_assignments_step_dispatches (as_ : Option (List IdObj)) (now : Int)
    (db : DB) :
    (collect_assignments_step as_ now db).dispatches = db.dispatches := by
  cases as_ with
  | none => rfl
  | some l =>
      by_cases he : l.isEmpty <;>
        simp [collect_assignments_step, he, save_assignments_dispatches]

theorem collect_assignments_step_events (as_ : Option (List IdObj)) (now : Int)
    (db : DB) :
    (collect_assignments_step as_ now db).planet_events = db.planet_events := by
  cases as_ with
  | none => rfl
  | some l =>
      by_cases he : l.isEmpty <;>
        simp [collect_assignments_step, he, save_assignments_events]

theorem collect_dispatches_step_campaigns (ds : Option (List IdObj)) (now : Int)
    (db : DB) :
    (collect_dispatches_step ds now db).campaigns = db.campaigns := by
  cases ds with
  | none => rfl
  | some l =>
      by_cases he : l.isEmpty <;>
        simp [collect_dispatches_step, he, save_dispatches_campaigns]

theorem collect_dispatches_step_assignments (ds : Option (List IdObj)) (now : Int)
    (db : DB) :
    (collect_dispatches_step ds now db).assignments = db.assignments := by
  cases ds with
  | none => rfl
  | some l =>
      by_cases he : l.isEmpty <;>
        simp [collect_dispatches_step, he, save_dispatches_assignments]

theorem collect_dispatches_step_events (ds : Option (List IdObj)) (now : Int)
    (db : DB) :
    (collect_dispatches_step ds now db).planet_events = db.planet_events := by
  cases ds with
  | none => rfl
  | some l =>
      by_cases he : l.isEmpty <;>
        simp [collect_dispatches_step, he, save_dispatches_events]

theorem collect_events_step_campaigns (es : Option (List EventObj)) (now : Int)
    (db : DB) :
    (collect_events_step es now db).campaigns = db.campaigns := by
  cases es with
  | none => rfl
  | some l =>
      by_cases he : l.isEmpty <;>
        simp [collect_events_step, he, save_planet_events_campaigns]

theorem collect_events_step_assignments (es : Option (List EventObj)) (now : Int)
    (db : DB) :
    (collect_events_step es now db).assignments = db.assignments := by
  cases es with
  | none => rfl
  | some l =>
      by_cases he : l.isEmpty <;>
        simp [collect_events_step, he, save_planet_events_assignments]

theorem collect_events_step_dispatches (es : Option (List EventObj)) (now : Int)
    (db : DB) :
    (collect_events_step es now db).dispatches = db.dispatches := by
  cases es with
  | none => rfl
  | some l =>
      by_cases he : l.isEmpty <;>
        simp [collect_events_step, he, save_planet_events_dispatches]

theorem set_upstream_status_campaigns (b : Bool) (now : Int) (db : DB) :
    (set_upstream_status b now db).campaigns = db.campaigns := rfl

theorem set_upstream_status_assignments (b : Bool) (now : Int) (db : DB) :
    (set_upstream_status b now db).assignments = db.assignments := rfl

theorem set_upstream_status_dispatches (b : Bool) (now : Int) (db : DB) :
    (set_upstream_status b now db).dispatches = db.dispatches := rfl

theorem set_upstream_status_events (b : Bool) (now : Int) (db : DB) :
    (set_upstream_status b now db).planet_events = db.planet_events := rfl

theorem collect_campaigns_step_congr (cs : Option (List CampaignObj)) (now : Int) :
    ∀ dbA dbB : DB, dbA.campaigns = dbB.campaigns →
      (collect_campaigns_step cs now dbA).campaigns =
        (collect_campaigns_step cs now dbB).campaigns := by
  cases cs with
  | none => intro dbA dbB h; exact h
  | some l =>
      induction l with
      | nil => intro dbA dbB h; exact h
      | cons c rest ih =>
          intro dbA dbB h
          have stepA : collect_campaigns_step (some (c :: rest)) now dbA =
              collect_campaigns_step (some rest) now
                (match c.id, c.planet with
                 | some cid, some pi_ =>
                     if cid != 0 && pi_ != 0 then save_campaign cid pi_ c now dbA
                     else dbA
                 | _, _ => dbA) := rfl
          have stepB : collect_campaigns_step (some (c :: rest)) now dbB =
              collect_campaigns_step (some rest) now
                (match c.id, c.planet with
                 | some cid, some pi_ =>
                     if cid != 0 && pi_ != 0 then save_campaign cid pi_ c now dbB
                     else dbB
                 | _, _ => dbB) := rfl
          rw [stepA, stepB]
          apply ih
          rcases hcid : c.id with _ | cid
          · simpa [hcid] using h
          · rcases hcpl : c.planet with _ | pl
            · simpa [hcid, hcpl] using h
            · by_cases hg : (cid != 0 && pl != 0) = true <;>
                simp [hcid, hcpl, hg, save_campaign, h]

theorem save_assignments_congr (l : List IdObj) (now : Int) :
    ∀ dbA dbB : DB, dbA.assignments = dbB.assignments →
      (save_assignments l now dbA).assignments =
        (save_assignments l now dbB).assignments := by
  induction l with
  | nil => intro dbA dbB h; exact h
  | cons a rest ih =>
      intro dbA dbB h
      have stepA : save_assignments (a :: rest) now dbA =
          save_assignments rest now
            (match a.id with
             | some i => if i != 0 then save_assignment i a now dbA else dbA
             | none => dbA) := rfl
      have stepB : save_assignments (a :: rest) now dbB =
          save_assignments rest now
            (match a.id with
             | some i => if i != 0 then save_assignment i a now dbB else dbB
             | none => dbB) := rfl
      rw [stepA, stepB]
      apply ih
      rcases hid : a.id with _ | i
      · simpa [hid] using h
      · by_cases hi : (i != 0) = true <;> simp [hid, hi, save_assignment, h]

theorem collect_assignments_step_congr (as_ : Option (List IdObj)) (now : Int)
    (dbA dbB : DB) (h : dbA.assignments = dbB.assignments) :
    (collect_assignments_step as_ now dbA).assignments =
      (collect_assignments_step as_ now dbB).assignments := by
  cases as_ with
  | none => exact h
  | some l =>
      by_cases he : l.isEmpty <;>
        simp [collect_assignments_step, he, save_assignments_congr l now dbA dbB h, h]

theorem save_dispatches_congr (l : List IdObj) (now : Int) :
    ∀ dbA dbB : DB, dbA.dispatches = dbB.dispatches →
      (save_dispatches l now dbA).dispatches =
        (save_dispatches l now dbB).dispatches := by
  induction l with
  | nil => intro dbA dbB h; exact h
  | cons a rest ih =>
      intro dbA dbB h
      have stepA : save_dispatches (a :: rest) now dbA =
          save_dispatches rest now
            (match a.id with
             | some i => if i != 0 then save_dispatch i a now dbA else dbA
             | none => dbA) := rfl
      have stepB : save_dispatches (a :: rest) now dbB =
          save_dispatches rest now
            (match a.id with
             | some i => if i != 0 then save_dispatch i a now dbB else dbB
             | none => dbB) := rfl
      rw [stepA, stepB]
      apply ih
      rcases hid : a.id with _ | i
      · simpa [hid] using h
      · by_cases hi : (i != 0) = true <;> simp [hid, hi, save_dispatch, h]

theorem collect_dispatches_step_congr (ds : Option (List IdObj)) (now : Int)
    (dbA dbB : DB) (h : dbA.dispatches = dbB.dispatches) :
    (collect_dispatches_step ds now dbA).dispatches =
      (collect_dispatches_step ds now dbB).dispatches := by
  cases ds with
  | none => exact h
  | some l =>
      by_cases he : l.isEmpty <;>
        simp [collect_dispatches_step, he, save_dispatches_congr l now dbA dbB h, h]

theorem save_planet_events_congr (l : List EventObj) (now : Int) :
    ∀ dbA dbB : DB, dbA.planet_events = dbB.planet_events →
      (save_planet_events l now dbA).planet_events =
        (save_planet_events l now dbB).planet_events := by
  induction l with
  | nil => intro dbA dbB h; exact h
  | cons e rest ih =>
      intro dbA dbB h
      have stepA : save_planet_events (e :: rest) now dbA =
          save_planet_events rest now
            (match e.id, e.planetIndex with
             | some i, some pi_ =>
                 if i != 0 && pi_ != 0 then
                   save_planet_event i pi_ (e.eventType.getD "unknown") e now dbA
                 else dbA
             | _, _ => dbA) := rfl
      have stepB : save_planet_events (e :: rest) now dbB =
          save_planet_events rest now
            (match e.id, e.planetIndex with
             | some i, some pi_ =>
                 if i != 0 && pi_ != 0 then
                   save_planet_event i pi_ (e.eventType.getD "unknown") e now dbB
                 else dbB
             | _, _ => dbB) := rfl
      rw [stepA, stepB]
      apply ih
      rcases hid : e.id with _ | i
      · simpa [hid] using h
      · rcases hpl : e.planetIndex with _ | pl
        · simpa [hid, hpl] using h
        · by_cases hg : (i != 0 && pl != 0) = true <;>
            simp [hid, hpl, hg, save_planet_event, h]

theorem collect_events_step_congr (es : Option (List EventObj)) (now : Int)
    (dbA dbB : DB) (h : dbA.planet_events = dbB.planet_events) :
    (collect_events_step es now dbA).planet_events =
      (collect_events_step es now dbB).planet_events := by
  cases es with
  | none => exact h
  | some l =>
      by_cases he : l.isEmpty <;>
        simp [collect_events_step, he, save_planet_events_congr l now dbA dbB h, h]

/-- C8. Collection-cycle resilience and health flag: the cycle is total
(no exception escapes to the scheduler); the upstream flag ends `true`
exactly when none of the seven fetches raised and `false` when any did;
and every resource fetched-and-persisted before a failure point stays
written — the war-status, statistics and planets writes survive
arbitrary later outcomes, and the campaigns, assignments, dispatches and
planet-events tables end exactly as their own step left them (computed
from the pre-cycle state), independent of any later fetch's outcome. -/
theorem collect_cycle_resilience (f : FetchResults) (now : Int) (db : DB) :
    (get_upstream_status (collect_all_data f now db) = !anyErr f) ∧
    (∀ w, f.war = .ok (some w) →
      (collect_all_data f now db).war_status = db.war_status ++ [⟨w, now⟩]) ∧
    (∀ w s, f.war = .ok w → f.stats = .ok (some s) →
      (collect_all_data f now db).statistics = db.statistics ++ [⟨s, now⟩]) ∧
    (∀ w s psl, f.war = .ok w → f.stats = .ok s → f.planets = .ok (some psl) →
      (collect_all_data f now db).planet_status =
        db.planet_status ++ (psl.filter (fun p => truthyInt p.index)).map
          (fun p => ⟨p.index.getD 0, p, now⟩)) ∧
    (∀ w s psl csl, f.war = .ok w → f.stats = .ok s → f.planets = .ok psl →
      f.campaigns = .ok csl →
      (collect_all_data f now db).campaigns =
        (collect_campaigns_step csl now db).campaigns) ∧
    (∀ w s psl csl asl, f.war = .ok w → f.stats = .ok s → f.planets = .ok psl →
      f.campaigns = .ok csl → f.assignments = .ok asl →
      (collect_all_data f now db).assignments =
        (collect_assignments_step asl now db).assignments) ∧
    (∀ w s psl csl asl dsl, f.war = .ok w → f.stats = .ok s → f.planets = .ok psl →
      f.campaigns = .ok csl → f.assignments = .ok asl → f.dispatches = .ok dsl →
      (collect_all_data f now db).dispatches =
        (collect_dispatches_step dsl now db).dispatches) ∧
    (∀ w s psl csl asl dsl esl, f.war = .ok w → f.stats = .ok s →
      f.planets = .ok psl → f.campaigns = .ok csl → f.assignments = .ok asl →
      f.dispatches = .ok dsl → f.events = .ok esl →
      (collect_all_data f now db).planet_events =
        (collect_events_step esl now db).planet_events) := by
  rcases f with ⟨war, stats, ps, cs, as_, ds, es⟩
  refine ⟨?_, ?_, ?_, ?_, ?_, ?_, ?_, ?_⟩
  · cases war <;> cases stats <;> cases ps <;> cases cs <;> cases as_ <;> cases ds <;>
      cases es <;>
      simp [collect_all_data, anyErr, exceptErr, get_set_upstream]
  · intro w hw
    cases war with
    | error e => simp at hw
    | ok w0 =>
        injection hw with hw0
        subst hw0
        cases stats <;> cases ps <;> cases cs <;> cases as_ <;> cases ds <;> cases es <;>
          simp [collect_all_data, collect_war_step, save_war_status,
            collect_stats_step_war, collect_planets_step_war,
            collect_campaigns_step_war, collect_assignments_step_war,
            collect_dispatches_step_war, collect_events_step_war,
            set_upstream_status_war]
  · intro w s hw hs
    cases war with
    | error e => simp at hw
    | ok w0 =>
        cases stats with
        | error e => simp at hs
        | ok s0 =>
            injection hs with hs0
            subst hs0
            cases ps <;> cases cs <;> cases as_ <;> cases ds <;> cases es <;>
              simp [collect_all_data, collect_stats_step, save_statistics,
                collect_war_step_stats, collect_planets_step_stats,
                collect_campaigns_step_stats, collect_assignments_step_stats,
                collect_dispatches_step_stats, collect_events_step_stats,
                set_upstream_status_stats]
  · intro w s psl hw hs hps
    cases war with
    | error e => simp at hw
    | ok w0 =>
        cases stats with
        | error e => simp at hs
        | ok s0 =>
            cases ps with
            | error e => simp at hps
            | ok ps0 =>
                injection hps with hps0
                subst hps0
                cases cs <;> cases as_ <;> cases ds <;> cases es <;>
                  simp [collect_all_data, collect_planets_step_spec,
                    collect_war_step_planets, collect_stats_step_planets,
                    collect_campaigns_step_planets, collect_assignments_step_planets,
                    collect_dispatches_step_planets, collect_events_step_planets,
                    set_upstream_status_planets]
  · intro w s psl csl hw hs hps hcs
    cases war with
    | error e => simp at hw
    | ok w0 =>
        cases stats with
        | error e => simp at hs
        | ok s0 =>
            cases ps with
            | error e => simp at hps
            | ok ps0 =>
                cases cs with
                | error e => simp at hcs
                | ok cs0 =>
                    injection hcs with hcs0
                    subst hcs0
                    cases as_ <;> cases ds <;> cases es <;>
                      (simp only [collect_all_data, set_upstream_status_campaigns,
                        collect_events_step_campaigns, collect_dispatches_step_campaigns,
                        collect_assignments_step_campaigns]
                       exact collect_campaigns_step_congr cs0 now _ db
                         (by simp [collect_planets_step_campaigns,
                           collect_stats_step_campaigns, collect_war_step_campaigns]))
  · intro w s psl csl asl hw hs hps hcs has
    cases war with
    | error e => simp at hw
    | ok w0 =>
        cases stats with
        | error e => simp at hs
        | ok s0 =>
            cases ps with
            | error e => simp at hps
            | ok ps0 =>
                cases cs with
                | error e => simp at hcs
                | ok cs0 =>
                    cases as_ with
                    | error e => simp at has
                    | ok as0 =>
                        injection has with has0
                        subst has0
                        cases ds <;> cases es <;>
                          (simp only [collect_all_data,
                            set_upstream_status_assignments,
                            collect_events_step_assignments,
                            collect_dispatches_step_assignments]
                           exact collect_assignments_step_congr as0 now _ db
                             (by simp [collect_campaigns_step_assignments,
                               collect_planets_step_assignments,
                               collect_stats_step_assignments,
                               collect_war_step_assignments]))
  · intro w s psl csl asl dsl hw hs hps hcs has hds
    cases war with
    | error e => simp at hw
    | ok w0 =>
        cases stats with
        | error e => simp at hs
        | ok s0 =>
            cases ps with
            | error e => simp at hps
            | ok ps0 =>
                cases cs with
                | error e => simp at hcs
                | ok cs0 =>
                    cases as_ with
                    | error e => simp at has
                    | ok as0 =>
                        cases ds with
                        | error e => simp at hds
                        | ok ds0 =>
                            injection hds with hds0
                            subst hds0
                            cases es <;>
                              (simp only [collect_all_data,
                                set_upstream_status_dispatches,
                                collect_events_step_dispatches]
                               exact collect_dispatches_step_congr ds0 now _ db
                                 (by simp [collect_assignments_step_dispatches,
                                   collect_campaigns_step_dispatches,
                                   collect_planets_step_dispatches,
                                   collect_stats_step_dispatches,
                                   collect_war_step_dispatches]))
  · intro w s psl csl asl dsl esl hw hs hps hcs has hds hes
    cases war with
    | error e => simp at hw
    | ok w0 =>
        cases stats with
        | error e => simp at hs
        | ok s0 =>
            cases ps with
            | error e => simp at hps
            | ok ps0 =>
                cases cs with
                | error e => simp at hcs
                | ok cs0 =>
                    cases as_ with
                    | error e => simp at has
                    | ok as0 =>
                        cases ds with
                        | error e => simp at hds
                        | ok ds0 =>
                            cases es with
                            | error e => simp at hes
                            | ok es0 =>
                                injection hes with hes0
                                subst hes0
                                simp only [collect_all_data,
                                  set_upstream_status_events]
                                exact collect_events_step_congr es0 now _ db
                                  (by simp [collect_dispatches_step_events,
                                    collect_assignments_step_events,
                                    collect_campaigns_step_events,
                                    collect_planets_step_events,
                                    collect_stats_step_events,
                                    collect_war_step_events])

/-- A concrete all-successful cycle used to instantiate the resilience
theorem. -/
def sampleFetch : FetchResults :=
  ⟨.ok (some 1), .ok (some 2), .ok (some [⟨some 3, 4⟩]), .ok (some []),
    .ok (some []), .ok (some []), .ok (some [])⟩

theorem collect_cycle_resilience_witness :
    (get_upstream_status (collect_all_data sampleFetch 0 emptyDB) =
      !anyErr sampleFetch) ∧
    ((collect_all_data sampleFetch 0 emptyDB).war_status =
      emptyDB.war_status ++ [⟨1, 0⟩]) ∧
    ((collect_all_data sampleFetch 0 emptyDB).statistics =
      emptyDB.statistics ++ [⟨2, 0⟩]) ∧
    ((collect_all_data sampleFetch 0 emptyDB).planet_status =
      emptyDB.planet_status ++
        (([(⟨some 3, 4⟩ : PlanetObj)]).filter (fun p => truthyInt p.index)).map
          (fun p => ⟨p.index.getD 0, p, 0⟩)) ∧
    ((collect_all_data sampleFetch 0 emptyDB).campaigns =
      (collect_campaigns_step (some []) 0 emptyDB).campaigns) ∧
    ((collect_all_data sampleFetch 0 emptyDB).assignments =
      (collect_assignments_step (some []) 0 emptyDB).assignments) ∧
    ((collect_all_data sampleFetch 0 emptyDB).dispatches =
      (collect_dispatches_step (some []) 0 emptyDB).dispatches) ∧
    ((collect_all_data sampleFetch 0 emptyDB).planet_events =
      (collect_events_step (some []) 0 emptyDB).planet_events) :=
  ⟨(collect_cycle_resilience sampleFetch 0 emptyDB).1,
    (collect_cycle_resilience sampleFetch 0 emptyDB).2.1 1 rfl,
    (collect_cycle_resilience sampleFetch 0 emptyDB).2.2.1 (some 1) 2 rfl rfl,
    (collect_cycle_resilience sampleFetch 0 emptyDB).2.2.2.1 (some 1) (some 2)
      [⟨some 3, 4⟩] rfl rfl rfl,
    (collect_cycle_resilience sampleFetch 0 emptyDB).2.2.2.2.1 (some 1) (some 2)
      (some [⟨some 3, 4⟩]) (some []) rfl rfl rfl rfl,
    (collect_cycle_resilience sampleFetch 0 emptyDB).2.2.2.2.2.1 (some 1) (some 2)
      (some [⟨some 3, 4⟩]) (some []) (some []) rfl rfl rfl rfl rfl,
    (collect_cycle_resilience sampleFetch 0 emptyDB).2.2.2.2.2.2.1 (some 1) (some 2)
      (some [⟨some 3, 4⟩]) (some []) (some []) (some []) rfl rfl rfl rfl rfl rfl,
    (collect_cycle_resilience sampleFetch 0 emptyDB).2.2.2.2.2.2.2 (some 1) (some 2)
      (some [⟨some 3, 4⟩]) (some []) (some []) (some []) (some [])
      rfl rfl rfl rfl rfl rfl rfl⟩
